import Mathlib

/-!
Shallow embedding of the GOE-Cymaglyph synthesizer core
(src/Source/PluginProcessor.{h,cpp} and src/Source/SynthEngine.{h,cpp}).

Floating-point values of the C++ source are modelled as real numbers;
C++ ints as ℤ (indices as ℕ where they are provably nonnegative).
Every definition mirrors the corresponding source function line by line;
the state that C++ mutates in place is passed explicitly.
-/

noncomputable section

open Real

/-- Truncation toward zero of a real, as the C++ cast `static_cast<int>`. -/
def itrunc (x : ℝ) : ℤ := if 0 ≤ x then ⌊x⌋ else -⌊-x⌋

/-- `SandWizardAudioProcessor::Voice::EnvelopeStage` (PluginProcessor.h:96). -/
inductive EnvStage
  | Off
  | Attack
  | Decay
  | Sustain
  | Release
deriving DecidableEq, Repr

/-- Per-voice state-variable filter state (PluginProcessor.h:106-129). -/
structure SVFilter where
  low : ℝ
  band : ℝ
  high : ℝ
  notch : ℝ
  peak : ℝ

/-- `SVFilter::reset` (PluginProcessor.h:113). -/
def SVFilter.resetF : SVFilter := ⟨0, 0, 0, 0, 0⟩

/-- `SandWizardAudioProcessor::Voice` (PluginProcessor.h:86-158), with the
member-initializer defaults of the C++ struct. -/
structure Voice where
  active : Bool := false
  noteNumber : ℤ := -1
  frequency : ℝ := 0
  phase : ℝ := 0
  amplitude : ℝ := 0
  targetAmplitude : ℝ := 0
  ampEnvStage : EnvStage := .Off
  ampEnvLevel : ℝ := 0
  filterEnvStage : EnvStage := .Off
  filterEnvLevel : ℝ := 0
  filterCutoff : ℝ := 1000
  filter : SVFilter := SVFilter.resetF

instance : Inhabited Voice := ⟨{}⟩

/-- `Voice::reset` (PluginProcessor.h:131-145): every field back to default. -/
def Voice.resetV (_ : Voice) : Voice := {}

/-- `Voice::startNote` (PluginProcessor.h:147-151). -/
def Voice.startNote (v : Voice) : Voice :=
  { v with ampEnvStage := .Attack, filterEnvStage := .Attack }

/-- `Voice::stopNote` (PluginProcessor.h:153-157). -/
def Voice.stopNote (v : Voice) : Voice :=
  { v with ampEnvStage := .Release, filterEnvStage := .Release }

/-- `SandWizardAudioProcessor::noteToFrequency` (PluginProcessor.cpp:562-567):
`shiftedNote = noteNumber + octaveShift*12`, then
`a4Reference * 2^((shiftedNote - 69) / 12)`. -/
def noteToFrequency (a4Reference : ℝ) (octaveShift noteNumber : ℤ) : ℝ :=
  let shiftedNote : ℤ := noteNumber + octaveShift * 12
  a4Reference * (2 : ℝ) ^ (((shiftedNote : ℝ) - 69) / 12)

/-- `SandWizardAudioProcessor::findFreeVoice` (PluginProcessor.cpp:538-548):
index of the first voice with `active == false`. -/
def findFreeVoice (voices : List Voice) : Option ℕ :=
  voices.findIdx? (fun v => !v.active)

/-- `SandWizardAudioProcessor::findVoiceForNote` (PluginProcessor.cpp:550-560):
index of the first active voice bound to `noteNumber`. -/
def findVoiceForNote (voices : List Voice) (noteNumber : ℤ) : Option ℕ :=
  voices.findIdx? (fun v => v.active && v.noteNumber == noteNumber)

/-- The steal scan of `handleMidiMessage` (PluginProcessor.cpp:485-495):
running over the pool keeping the first index that strictly lowers the
running minimum amplitude, which starts at `1.0f`. -/
def stealScan : List Voice → ℕ → ℝ → Option ℕ → Option ℕ
  | [], _, _, best => best
  | v :: rest, i, minAmp, best =>
      if v.amplitude < minAmp then stealScan rest (i + 1) v.amplitude (some i)
      else stealScan rest (i + 1) minAmp best

/-- The index stolen when no voice is free (PluginProcessor.cpp:485-501);
`voices[0]` is the fallback when the scan never fired. -/
def stealVoiceIdx (voices : List Voice) : ℕ :=
  (stealScan voices 0 1 none).getD 0

/-- In-place update of the i-th list element (the C++ code writes through a
`Voice*` into the fixed pool array). -/
def modifyAt (f : Voice → Voice) : List Voice → ℕ → List Voice
  | [], _ => []
  | v :: rest, 0 => f v :: rest
  | v :: rest, i + 1 => v :: modifyAt f rest i

/-- Voice initialization on note-on (PluginProcessor.cpp:504-511): the listed
fields are overwritten, everything else (envelope levels, filter state) is
kept from the previous occupant. -/
def noteOnInit (a4 : ℝ) (shift : ℤ) (noteNumber : ℤ) (velocity : ℝ)
    (v : Voice) : Voice :=
  Voice.startNote
    { v with
      active := true
      noteNumber := noteNumber
      frequency := noteToFrequency a4 shift noteNumber
      phase := 0
      targetAmplitude := velocity
      amplitude := 0 }

/-- The retrigger update for a note that is already playing
(PluginProcessor.cpp:475-478): `targetAmplitude = velocity;
amplitude = amplitude * 0.5f;` and return. -/
def retrigger (velocity : ℝ) (v : Voice) : Voice :=
  { v with targetAmplitude := velocity, amplitude := v.amplitude * 0.5 }

/-- Polyphonic note-on branch of `handleMidiMessage`
(PluginProcessor.cpp:466-512). -/
def polyNoteOn (a4 : ℝ) (shift : ℤ) (noteNumber : ℤ) (velocity : ℝ)
    (voices : List Voice) : List Voice :=
  match findVoiceForNote voices noteNumber with
  | some i => modifyAt (retrigger velocity) voices i
  | none =>
      let i := match findFreeVoice voices with
        | some j => j
        | none => stealVoiceIdx voices
      modifyAt (noteOnInit a4 shift noteNumber velocity) voices i

/-- Per-voice effect of the polyphonic note-off branch
(PluginProcessor.cpp:513-526). -/
def noteOffVoice (noteNumber : ℤ) (v : Voice) : Voice :=
  if v.active && v.noteNumber == noteNumber then v.stopNote else v

/-- Polyphonic note-off branch of `handleMidiMessage`
(PluginProcessor.cpp:513-526): release every active voice on the note. -/
def polyNoteOff (noteNumber : ℤ) (voices : List Voice) : List Voice :=
  voices.map (noteOffVoice noteNumber)

/-- `SandWizardAudioProcessor::processEnvelope` (PluginProcessor.cpp:638-686);
the three rates are `1 / (time * sampleRate)`. -/
def processEnvelope (sampleRate attack decay sustain release : ℝ)
    (v : Voice) : Voice :=
  let attackRate := 1 / (attack * sampleRate)
  let decayRate := 1 / (decay * sampleRate)
  let releaseRate := 1 / (release * sampleRate)
  let v1 :=
    match v.ampEnvStage with
    | .Attack =>
        let level := v.ampEnvLevel + attackRate
        if 1 ≤ level then { v with ampEnvLevel := 1, ampEnvStage := .Decay }
        else { v with ampEnvLevel := level }
    | .Decay =>
        let level := v.ampEnvLevel - decayRate * (1 - sustain)
        if level ≤ sustain then
          { v with ampEnvLevel := sustain, ampEnvStage := .Sustain }
        else { v with ampEnvLevel := level }
    | .Sustain => { v with ampEnvLevel := sustain }
    | .Release =>
        let level := v.ampEnvLevel - releaseRate
        if level ≤ 0 then { v with ampEnvLevel := 0, ampEnvStage := .Off }
        else { v with ampEnvLevel := level }
    | .Off => { v with ampEnvLevel := 0 }
  { v1 with filterEnvLevel := v1.ampEnvLevel }

/-- The per-sample phase advance of the render loop
(PluginProcessor.cpp:251,346-350 and 292-294): add
`frequency * (1/sampleRate)` and subtract 1 once if the result is ≥ 1. -/
def advancePhase (sampleRate phase frequency : ℝ) : ℝ :=
  let phaseInc := frequency * (1 / sampleRate)
  let p := phase + phaseInc
  if 1 ≤ p then p - 1 else p

/-- The spec's wording of the phase advance (§4.2): the frequency is clamped
to [20, 20000] Hz before the phase-increment computation.  Kept only to
compare against `advancePhase`, the code's version, which does not clamp. -/
def advancePhaseSpec (sampleRate phase frequency : ℝ) : ℝ :=
  let clamped := max 20 (min frequency 20000)
  let p := phase + clamped * (1 / sampleRate)
  if 1 ≤ p then p - 1 else p

/-- Per-voice state effect of one sample of the polyphonic render loop
(PluginProcessor.cpp:319-356): envelope step, then either a phase advance
(audible voice), a hard reset (envelope finished), or nothing.  The audio
output and the shared engine state are modelled separately; `amplitude` is
not touched anywhere on this path. -/
def renderVoiceStep (sampleRate attack decay sustain release : ℝ)
    (v : Voice) : Voice :=
  if v.active then
    let v1 := processEnvelope sampleRate attack decay sustain release v
    if 0.001 < v1.ampEnvLevel then
      { v1 with phase := advancePhase sampleRate v1.phase v1.frequency }
    else if v1.ampEnvStage = .Off then v1.resetV
    else v1
  else v

/-- `SandWizardAudioProcessor::getActiveFrequencies`
(PluginProcessor.cpp:177-190): frequencies of voices with
`active && amplitude > 0.01f`. -/
def getActiveFrequencies (voices : List Voice) : List ℝ :=
  (voices.filter (fun v => v.active && decide ((0.01 : ℝ) < v.amplitude))).map
    (fun v => v.frequency)

/-- Monophonic dispatcher state (PluginProcessor.h:199-201): the held-note
stack (most recent at the tail) and the sounding note, -1 for silence.
The frequency published for display is `noteToFrequency currentMonoNote`,
modelled separately. -/
structure MonoState where
  heldMonoNotes : List ℤ
  currentMonoNote : ℤ
deriving DecidableEq, Repr

/-- Monophonic note-on branch of `handleMidiMessage`
(PluginProcessor.cpp:404-428): erase the note, append it at the tail, drop
the head if the stack exceeds 10 entries, and sound the new note. -/
def monoNoteOn (noteNumber : ℤ) (s : MonoState) : MonoState :=
  let removed := s.heldMonoNotes.filter (fun m => m != noteNumber)
  let pushed := removed ++ [noteNumber]
  let limited := if 10 < pushed.length then pushed.tail else pushed
  { heldMonoNotes := limited, currentMonoNote := noteNumber }

/-- Monophonic note-off branch of `handleMidiMessage`
(PluginProcessor.cpp:429-456): erase the note; if it was sounding, fall back
to the most recent remaining held note, else go silent. -/
def monoNoteOff (noteNumber : ℤ) (s : MonoState) : MonoState :=
  let removed := s.heldMonoNotes.filter (fun m => m != noteNumber)
  if noteNumber = s.currentMonoNote then
    match removed.getLast? with
    | some m => { heldMonoNotes := removed, currentMonoNote := m }
    | none => { heldMonoNotes := removed, currentMonoNote := -1 }
  else { heldMonoNotes := removed, currentMonoNote := s.currentMonoNote }

/-- The state before any MIDI input (PluginProcessor.cpp:216-219). -/
def monoState0 : MonoState := { heldMonoNotes := [], currentMonoNote := -1 }

/-! ### SynthEngine components (SynthEngine.h / SynthEngine.cpp)

The engine's pseudo-random generator (`std::mt19937 rng` with
`uniform_real_distribution(-1,1)`) is modelled by an explicit stream
`ℕ → ℝ` of draws together with a cursor; `randomFloat()` reads the stream
at the cursor and advances it.  Function-local `static` buffers in
SynthEngine.cpp (feedbackBuffer, combBuffer, syncPhase, frozenSample,
pitchBuffer, frozenSpectrum, diffusionBuffer, diffusionIndex) are part of
the engine state, named after the mirror members the header declares for
them (SynthEngine.h:302-312). -/

/-- C's `roundf` (round half away from zero), used by the bit crusher. -/
def cround (x : ℝ) : ℤ := if 0 ≤ x then ⌊x + 1 / 2⌋ else -⌊-x + 1 / 2⌋

/-- C's `fmodf` (truncated remainder). -/
def cfmod (x y : ℝ) : ℝ := x - y * (itrunc (x / y) : ℝ)

/-- `SynthEngine::softClip` (SynthEngine.cpp:1087-1092). -/
def softClip (input : ℝ) : ℝ :=
  if |input| < 0.7 then input else Real.tanh (input * 1.2) * 0.8

/-- `SynthEngine::hardClip` (SynthEngine.cpp:1094-1097). -/
def hardClip (input : ℝ) : ℝ := max (-1) (min 1 input)

/-- `SynthEngine::analogSaturate` (SynthEngine.cpp:1099-1110). -/
def analogSaturate (input : ℝ) : ℝ :=
  let x := input * 0.7
  let output := x + x ^ 2 * 0.1 - x ^ 3 * 0.05
  Real.tanh (output * 1.5) * 0.7

/-- `SynthEngine::mixLayers` (SynthEngine.cpp:1145-1148). -/
def mixLayers (dry wet mix : ℝ) : ℝ := dry * (1 - mix) + wet * mix

/-- `SynthEngine::spectralWarp` (SynthEngine.cpp:1150-1159). -/
def spectralWarp (value warp : ℝ) : ℝ :=
  if |warp| < 0.01 then value
  else
    let numerator := Real.exp (warp * |value|) - 1
    let denominator := Real.exp warp - 1
    if 0 ≤ value then numerator / denominator else -(numerator / denominator)

/-- `SynthEngine::Layer` (SynthEngine.h:74-80). -/
structure Layer where
  phase : ℝ := 0
  frequency : ℝ := 1
  amplitude : ℝ := 1
  detune : ℝ := 0
  pan : ℝ := 0

/-- `SynthEngine::Filter` (SynthEngine.h:82-100): state-variable and Moog
ladder state in one struct. -/
structure SynthFilter where
  low : ℝ := 0
  band : ℝ := 0
  high : ℝ := 0
  notch : ℝ := 0
  f : ℝ := 0.1
  q : ℝ := 1
  stage : Fin 4 → ℝ := fun _ => 0
  delay : Fin 4 → ℝ := fun _ => 0
  feedback : ℝ := 0

/-- `Filter::setStateVariable` (SynthEngine.cpp:820-825). -/
def SynthFilter.setStateVariable (frequency resonance sampleRate : ℝ)
    (flt : SynthFilter) : SynthFilter :=
  { flt with
    f := 2 * Real.sin (Real.pi * min frequency (sampleRate * 0.49) / sampleRate)
    q := 1 / max resonance 0.5 }

/-- `Filter::processLowpass` (SynthEngine.cpp:827-833). -/
def SynthFilter.processLowpass (input : ℝ) (flt : SynthFilter) :
    ℝ × SynthFilter :=
  let low := flt.low + flt.f * flt.band
  let high := input - low - flt.q * flt.band
  let band := flt.band + flt.f * high
  (low, { flt with low := low, high := high, band := band })

/-- `Filter::processBandpass` (SynthEngine.cpp:835-841). -/
def SynthFilter.processBandpass (input : ℝ) (flt : SynthFilter) :
    ℝ × SynthFilter :=
  let low := flt.low + flt.f * flt.band
  let high := input - low - flt.q * flt.band
  let band := flt.band + flt.f * high
  (band, { flt with low := low, high := high, band := band })

/-- `Filter::processHighpass` (SynthEngine.cpp:843-849). -/
def SynthFilter.processHighpass (input : ℝ) (flt : SynthFilter) :
    ℝ × SynthFilter :=
  let low := flt.low + flt.f * flt.band
  let high := input - low - flt.q * flt.band
  let band := flt.band + flt.f * high
  (high, { flt with low := low, high := high, band := band })

/-- `Filter::setMoogLadder` (SynthEngine.cpp:859-875); the locals `fcr`,
`acr`, `k`, `k2`, `bh` of the source are computed and discarded, only
`feedback` is stored. -/
def SynthFilter.setMoogLadder (frequency resonance sampleRate : ℝ)
    (flt : SynthFilter) : SynthFilter :=
  let fc := frequency / sampleRate
  { flt with feedback := resonance * (1 - 0.15 * fc ^ 2) }

/-- `Filter::processMoogLadder` (SynthEngine.cpp:877-901). -/
def SynthFilter.processMoogLadder (input : ℝ) (flt : SynthFilter) :
    ℝ × SynthFilter :=
  let sigma := Real.tanh (flt.feedback * flt.stage 3)
  let inp := Real.tanh (input - sigma)
  let s0 := inp - flt.delay 0
  let s1 := s0 - flt.delay 1
  let s2 := s1 - flt.delay 2
  let s3 := s2 - flt.delay 3
  (s3, { flt with stage := ![s0, s1, s2, s3], delay := ![inp, s0, s1, s2] })

/-- `SynthEngine::Envelope` (SynthEngine.h:102-111). -/
structure SynthEnvelope where
  attack : ℝ := 0.01
  decay : ℝ := 0.1
  sustain : ℝ := 0.7
  release : ℝ := 0.5
  level : ℝ := 0
  state : ℝ := 0

/-- `SynthEngine::LFO` (SynthEngine.h:113-119) and `LFO::process`
(SynthEngine.cpp:940-945). -/
structure SynthLFO where
  phase : ℝ := 0
  frequency : ℝ := 1
  depth : ℝ := 1

def SynthLFO.process (l : SynthLFO) : ℝ × SynthLFO :=
  let p0 := l.phase + l.frequency / 44100
  let p := if 1 ≤ p0 then p0 - 1 else p0
  (Real.sin (2 * Real.pi * p) * l.depth, { l with phase := p })

/-- `SynthEngine::Chorus` (SynthEngine.h:121-131), `MAX_DELAY = 4096`. -/
structure Chorus where
  buffer : ℕ → ℝ := fun _ => 0
  writeIndex : ℕ := 0
  rate : ℝ := 0.5
  depth : ℝ := 0.3
  mix : ℝ := 0.3
  lfoPhase : ℝ := 0

/-- `Chorus::process` (SynthEngine.cpp:947-972). -/
def Chorus.process (input : ℝ) (c : Chorus) : ℝ × Chorus :=
  let buffer := Function.update c.buffer c.writeIndex input
  let p0 := c.lfoPhase + c.rate / 44100
  let lfoPhase := if 1 ≤ p0 then p0 - 1 else p0
  let lfo := Real.sin (2 * Real.pi * lfoPhase)
  let delayTime := 0.02 + c.depth * 0.02 * lfo
  let delaySamples := itrunc (delayTime * 44100)
  let readIndex : ℤ := (c.writeIndex : ℤ) - delaySamples
  let readIndex := if readIndex < 0 then readIndex + 4096 else readIndex
  let delayed := buffer readIndex.toNat
  (input * (1 - c.mix) + delayed * c.mix,
   { c with buffer := buffer, writeIndex := (c.writeIndex + 1) % 4096,
            lfoPhase := lfoPhase })

/-- `Reverb::CombFilter` (SynthEngine.h:137-143); the ring buffer is a
function plus its allocated length. -/
structure Comb where
  buffer : ℕ → ℝ := fun _ => 0
  size : ℕ := 0
  index : ℕ := 0
  feedback : ℝ := 0.8
  damp : ℝ := 0.2
  lastOut : ℝ := 0

/-- `Reverb::AllpassFilter` (SynthEngine.h:145-149). -/
structure Allpass where
  buffer : ℕ → ℝ := fun _ => 0
  size : ℕ := 0
  index : ℕ := 0
  feedback : ℝ := 0.5

/-- `SynthEngine::Reverb` (SynthEngine.h:133-159). -/
structure Reverb where
  combs : List Comb := []
  allpasses : List Allpass := []
  roomSize : ℝ := 0.5
  damping : ℝ := 0.5
  wetLevel : ℝ := 0.3

/-- One comb iteration of `Reverb::process` (SynthEngine.cpp:998-1006). -/
def combStep (roomSize damping input : ℝ) (c : Comb) : ℝ × Comb :=
  let y := c.buffer c.index
  let lastOut := y * (1 - damping) + c.lastOut * damping
  (y, { c with
          lastOut := lastOut
          buffer := Function.update c.buffer c.index
            (input + lastOut * c.feedback * roomSize)
          index := (c.index + 1) % c.size })

/-- The parallel comb loop of `Reverb::process`, accumulating the outputs. -/
def combLoop (roomSize damping input : ℝ) : List Comb → ℝ × List Comb
  | [] => (0, [])
  | c :: rest =>
      let yc := combStep roomSize damping input c
      let srest := combLoop roomSize damping input rest
      (yc.1 + srest.1, yc.2 :: srest.2)

/-- The serial allpass chain of `Reverb::process`
(SynthEngine.cpp:1010-1018). -/
def allpassLoop : ℝ → List Allpass → ℝ × List Allpass
  | out, [] => (out, [])
  | out, a :: rest =>
      let bufOut := a.buffer a.index
      let inSum := out + bufOut * a.feedback
      let a2 : Allpass :=
        { a with
            buffer := Function.update a.buffer a.index inSum
            index := (a.index + 1) % a.size }
      let res := allpassLoop (bufOut - inSum * a.feedback) rest
      (res.1, a2 :: res.2)

/-- `Reverb::process` (SynthEngine.cpp:994-1021). -/
def Reverb.process (input : ℝ) (r : Reverb) : ℝ × Reverb :=
  let co := combLoop r.roomSize r.damping input r.combs
  let ao := allpassLoop (co.1 * 0.125) r.allpasses
  (ao.1 * r.wetLevel, { r with combs := co.2, allpasses := ao.2 })

/-- A comb filter as `Reverb::initialize` builds it
(SynthEngine.cpp:974-984). -/
def mkComb (n : ℕ) : Comb := { size := n, feedback := 0.84, damp := 0.2 }

/-- An allpass filter as `Reverb::initialize` builds it
(SynthEngine.cpp:986-991). -/
def mkAllpass (n : ℕ) : Allpass := { size := n, feedback := 0.5 }

/-- `Reverb::initialize` (SynthEngine.cpp:974-992). -/
def reverbInit : Reverb :=
  { combs := [mkComb 1557, mkComb 1617, mkComb 1491, mkComb 1422,
              mkComb 1277, mkComb 1356, mkComb 1188, mkComb 1116]
    allpasses := [mkAllpass 556, mkAllpass 441, mkAllpass 341, mkAllpass 225] }

/-- `SynthEngine::DelayLine` (SynthEngine.h:161-170). -/
structure DelayLine where
  buffer : ℕ → ℝ := fun _ => 0
  size : ℕ := 0
  writeIndex : ℕ := 0
  feedback : ℝ := 0.4
  time : ℝ := 0.25
  mix : ℝ := 0.2

/-- `DelayLine::process` (SynthEngine.cpp:1029-1052). -/
def DelayLine.process (input : ℝ) (d : DelayLine) : ℝ × DelayLine :=
  if d.size = 0 then (input, d)
  else
    let buffer := Function.update d.buffer d.writeIndex input
    let delaySamples := itrunc (d.time * 44100)
    let readIndex : ℤ := (d.writeIndex : ℤ) - delaySamples
    let readIndex := if readIndex < 0 then readIndex + d.size else readIndex
    let delayed := buffer readIndex.toNat
    let buffer := Function.update buffer d.writeIndex
      (buffer d.writeIndex + delayed * d.feedback)
    (input * (1 - d.mix) + delayed * d.mix,
     { d with buffer := buffer, writeIndex := (d.writeIndex + 1) % d.size })

/-- The wavetable entry `tables[t][i]` that
`WavetableOscillator::initialize` precomputes (SynthEngine.cpp:778-801):
`numHarmonics = 1 + t` partials with amplitude `1/(h*(1+0.1t))`, then a
`tanh(x*0.5)` soft knee. -/
def wtTable (t i : ℕ) : ℝ :=
  let phase : ℝ := (i : ℝ) / 2048
  Real.tanh ((∑ h ∈ Finset.Icc 1 (1 + t),
    Real.sin (2 * Real.pi * phase * (h : ℝ)) * (1 / ((h : ℝ) * (1 + (t : ℝ) * 0.1)))) * 0.5)

/-- Table lookup with the C++ `int` index; the source indexes the
`std::array` directly, which is only defined for in-range indices. -/
def wtTableZ (t i : ℤ) : ℝ := wtTable t.toNat i.toNat

/-- `SynthEngine::WavetableOscillator` state (SynthEngine.h:173-181): only
`morphPosition` is mutable, the tables are the fixed `wtTable`. -/
structure Wavetable where
  morphPosition : ℝ := 0

/-- `WavetableOscillator::generate` (SynthEngine.cpp:803-818). -/
def Wavetable.generate (w : Wavetable) (phase : ℝ) : ℝ :=
  let tableA : ℤ := itrunc w.morphPosition
  let tableB : ℤ := (tableA + 1).tmod 16
  let blend := w.morphPosition - (tableA : ℝ)
  let floatIndex := phase * 2048
  let index : ℤ := (itrunc floatIndex).tmod 2048
  let nextIndex : ℤ := (index + 1).tmod 2048
  let frac := floatIndex - (index : ℝ)
  let sampleA := wtTableZ tableA index * (1 - frac)
    + wtTableZ tableA nextIndex * frac
  let sampleB := wtTableZ tableB index * (1 - frac)
    + wtTableZ tableB nextIndex * frac
  sampleA * (1 - blend) + sampleB * blend

/-- `SynthEngine::FMOperator` (SynthEngine.h:184-192). -/
structure FMOperator where
  phase : ℝ := 0
  frequency : ℝ := 1
  amplitude : ℝ := 1
  feedback : ℝ := 0
  lastOutput : ℝ := 0

/-- `SynthEngine::Harmonic` (SynthEngine.h:195-199). -/
structure Harmonic where
  amplitude : ℝ := 0
  frequency : ℝ := 1
  phase : ℝ := 0

/-- `SynthEngine::Grain` (SynthEngine.h:202-210). -/
structure Grain where
  position : ℝ := 0
  duration : ℝ := 0.1
  pitch : ℝ := 1
  amplitude : ℝ := 0
  envelope : ℝ := 0
  pan : ℝ := 0
  active : Bool := false

/-- `SynthEngine::KarplusStrong` (SynthEngine.h:213-222). -/
structure KarplusStrong where
  delayLine : ℕ → ℝ := fun _ => 0
  size : ℕ := 0
  writeIndex : ℕ := 0
  feedback : ℝ := 0.99
  damping : ℝ := 0.5
  lastSample : ℝ := 0

/-- `KarplusStrong::setFrequency` (SynthEngine.cpp:1061-1069):
`std::vector::resize` keeps the first `min(old, new)` entries and
zero-fills the rest. -/
def KarplusStrong.setFrequency (freq sampleRate : ℝ) (k : KarplusStrong) :
    KarplusStrong :=
  let n := (itrunc (sampleRate / freq)).toNat
  if n ≠ k.size then
    { k with
        delayLine := fun i => if i < min k.size n then k.delayLine i else 0
        size := n
        writeIndex := 0 }
  else k

/-- `KarplusStrong::process` (SynthEngine.cpp:1071-1085). -/
def KarplusStrong.process (excitation : ℝ) (k : KarplusStrong) :
    ℝ × KarplusStrong :=
  if k.size = 0 then (excitation, k)
  else
    let output := k.delayLine k.writeIndex
    let filtered := (output + k.lastSample) * 0.5 * k.feedback * (1 - k.damping)
    (output,
     { k with
         lastSample := output
         delayLine := Function.update k.delayLine k.writeIndex
           (excitation + filtered)
         writeIndex := (k.writeIndex + 1) % k.size })

/-- `SynthEngine::Phaser` (SynthEngine.h:237-246), `NUM_STAGES = 6`. -/
structure Phaser where
  allpassStates : List ℝ := [0, 0, 0, 0, 0, 0]
  lfoPhase : ℝ := 0
  rate : ℝ := 0.5
  depth : ℝ := 0.5
  feedback : ℝ := 0.3

/-- The allpass cascade of `Phaser::process` (SynthEngine.cpp:1201-1208):
each stage replaces its state with the incoming sample. -/
def phaserStages (coeff : ℝ) : ℝ → List ℝ → ℝ × List ℝ
  | out, [] => (out, [])
  | out, st :: rest =>
      let res := phaserStages coeff (-out + coeff * (out - st)) rest
      (res.1, out :: res.2)

/-- `Phaser::process` (SynthEngine.cpp:1191-1211). -/
def Phaser.process (input : ℝ) (p : Phaser) : ℝ × Phaser :=
  let p0 := p.lfoPhase + p.rate * 0.0001
  let lfoPhase := if 1 < p0 then p0 - 1 else p0
  let lfoValue := Real.sin (lfoPhase * 2 * Real.pi)
  let frequency := 200 + lfoValue * p.depth * 2000
  let coeff := (1 - frequency / 22050) / (1 + frequency / 22050)
  let res := phaserStages coeff input p.allpassStates
  (input + res.1 * p.feedback,
   { p with lfoPhase := lfoPhase, allpassStates := res.2 })

/-- `SynthEngine::BitCrusher` (SynthEngine.h:248-255). -/
structure BitCrusher where
  bitDepth : ℝ := 16
  sampleRateReduction : ℝ := 1
  lastSample : ℝ := 0
  sampleCounter : ℤ := 0

/-- `BitCrusher::process` (SynthEngine.cpp:1173-1189). -/
def BitCrusher.process (input : ℝ) (b : BitCrusher) : ℝ × BitCrusher :=
  let levels := (2 : ℝ) ^ b.bitDepth
  let quantized := (cround (input * levels) : ℝ) / levels
  let counter := b.sampleCounter + 1
  let skipSamples := itrunc b.sampleRateReduction
  if skipSamples ≤ counter then
    (quantized, { b with lastSample := quantized, sampleCounter := 0 })
  else (b.lastSample, { b with sampleCounter := counter })

/-- `SynthEngine::DimensionExpander` (SynthEngine.h:257-264). -/
structure Dimension where
  delayBuffer : ℕ → ℝ := fun _ => 0
  writeIndex : ℕ := 0
  size : ℝ := 0.5
  diffusion : ℝ := 0.7

/-- `DimensionExpander::process` (SynthEngine.cpp:1213-1234). -/
def Dimension.process (input : ℝ) (d : Dimension) : (ℝ × ℝ) × Dimension :=
  let delayTime1 := itrunc (d.size * 441)
  let delayTime2 := itrunc (d.size * 882)
  let buffer := Function.update d.delayBuffer d.writeIndex input
  let read1 := (((d.writeIndex : ℤ) - delayTime1 + 4096).tmod 4096).toNat
  let read2 := (((d.writeIndex : ℤ) - delayTime2 + 4096).tmod 4096).toNat
  let delayed1 := buffer read1
  let delayed2 := buffer read2
  let diffused1 := delayed1 * (1 - d.diffusion) + delayed2 * d.diffusion * 0.5
  let diffused2 := delayed2 * (1 - d.diffusion) + delayed1 * d.diffusion * 0.5
  ((input + diffused1 * 0.3, input + diffused2 * 0.3),
   { d with delayBuffer := buffer, writeIndex := (d.writeIndex + 1) % 4096 })

/-- The grain texture buffer built by the constructor
(SynthEngine.cpp:49-59), 8192 samples. -/
def grainBuf (i : ℕ) : ℝ :=
  let t : ℝ := (i : ℝ) / 8192
  (Real.sin (2 * Real.pi * t) * 0.5 + Real.sin (4 * Real.pi * t) * 0.25
    + Real.sin (6 * Real.pi * t) * 0.125) * (Real.exp (-t * 3) * (1 - t))

/-- The whole mutable state of `SynthEngine` (SynthEngine.h:266-316).
`harmonics` (a 32-element array in the source) is indexed by ℕ; `grains` is
the 32-slot pool.  The `rngStream`/`rngIndex` pair models the seeded
`std::mt19937` with `uniform_real_distribution(-1,1)`. -/
structure SynthEngine where
  layers : Fin 4 → Layer
  filters : Fin 4 → SynthFilter
  envelopes : Fin 4 → SynthEnvelope
  lfos : Fin 4 → SynthLFO
  fmOperators : Fin 6 → FMOperator
  harmonics : ℕ → Harmonic
  grains : List Grain
  strings : Fin 4 → KarplusStrong
  wavetable : Wavetable
  chorus : Chorus
  reverb : Reverb
  delay : DelayLine
  phaser : Phaser
  bitCrusher : BitCrusher
  dimension : Dimension
  grainCounter : ℤ
  velocity : ℝ
  lastFrequency : ℝ
  currentPhase : ℝ
  sampleCounter : ℤ
  plasmaFeedbackBuffer : ℝ
  plasmaCombBuffer : ℕ → ℝ
  plasmaCombIndex : ℕ
  quantumSyncPhase : ℝ
  quantumFrozenSample : ℝ
  crystalPitchBuffer : ℕ → ℝ
  crystalPitchIndex : ℕ
  solarFrozenSpectrum : ℕ → ℝ
  solarDiffusionBuffer : Fin 4 → ℕ → ℝ
  solarDiffusionIndex : Fin 4 → ℕ
  rngStream : ℕ → ℝ
  rngIndex : ℕ

/-- The FM operator frequency ratios of the constructor
(SynthEngine.cpp:69). -/
def fmRatio : Fin 6 → ℝ := ![1, 14, 1, 1, 0.5, 1]

/-- The `SynthEngine` constructor (SynthEngine.cpp:37-81) with a given
random stream: wavetable and reverb initialized, 22050-sample delay line,
layers detuned/panned by `(i - 1.5) * 0.002` / `(i - 1.5) * 0.25`,
FM ratios set, strings tuned to 440 Hz at 44100 Hz. -/
def initEngine (stream : ℕ → ℝ) : SynthEngine where
  layers := fun i =>
    { detune := ((i : ℕ) - (1.5 : ℝ)) * 0.002, pan := ((i : ℕ) - (1.5 : ℝ)) * 0.25 }
  filters := fun _ => {}
  envelopes := fun _ => {}
  lfos := fun _ => {}
  fmOperators := fun i => { frequency := fmRatio i, amplitude := 1 }
  harmonics := fun _ => {}
  grains := List.replicate 32 {}
  strings := fun _ => KarplusStrong.setFrequency 440 44100 {}
  wavetable := {}
  chorus := {}
  reverb := reverbInit
  delay := { size := 22050 }
  phaser := {}
  bitCrusher := {}
  dimension := {}
  grainCounter := 0
  velocity := 0.7
  lastFrequency := 440
  currentPhase := 0
  sampleCounter := 0
  plasmaFeedbackBuffer := 0
  plasmaCombBuffer := fun _ => 0
  plasmaCombIndex := 0
  quantumSyncPhase := 0
  quantumFrozenSample := 0
  crystalPitchBuffer := fun _ => 0
  crystalPitchIndex := 0
  solarFrozenSpectrum := fun _ => 0
  solarDiffusionBuffer := fun _ _ => 0
  solarDiffusionIndex := fun _ => 0
  rngStream := stream
  rngIndex := 0

/-- `SynthEngine::reset` (SynthEngine.cpp:83-105): clears the oscillator
phases (`currentPhase`, layer phases), the FM operators' phase/lastOutput,
deactivates all grains and zeroes the envelopes — and nothing else. -/
def SynthEngine.reset (s : SynthEngine) : SynthEngine :=
  { s with
      currentPhase := 0
      layers := fun i => { s.layers i with phase := 0 }
      fmOperators := fun i => { s.fmOperators i with phase := 0, lastOutput := 0 }
      grains := s.grains.map (fun g => { g with active := false })
      envelopes := fun i => { s.envelopes i with level := 0, state := 0 } }

/-- `SynthEngine::randomFloat` (SynthEngine.cpp:1112-1115). -/
def SynthEngine.randomFloat (s : SynthEngine) : ℝ × SynthEngine :=
  (s.rngStream s.rngIndex, { s with rngIndex := s.rngIndex + 1 })

/-- The grain-pool walk of `SynthEngine::triggerGrain`
(SynthEngine.cpp:1117-1133): fill the first inactive slot from five random
draws (position, duration, pitch, amplitude, pan) and stop. -/
def triggerGrainList (stream : ℕ → ℝ) : List Grain → ℕ → List Grain × ℕ
  | [], idx => ([], idx)
  | g :: rest, idx =>
      if g.active then
        let r := triggerGrainList stream rest idx
        (g :: r.1, r.2)
      else
        ({ position := stream idx * 0.5 + 0.5
           duration := 0.1 + stream (idx + 1) * 0.2
           pitch := 0.8 + stream (idx + 2) * 0.4
           amplitude := 0.3 + stream (idx + 3) * 0.4
           envelope := 0
           pan := stream (idx + 4) * 0.5
           active := true } :: rest, idx + 5)

/-- `SynthEngine::triggerGrain` (SynthEngine.cpp:1117-1133). -/
def SynthEngine.triggerGrain (s : SynthEngine) : SynthEngine :=
  let r := triggerGrainList s.rngStream s.grains s.rngIndex
  { s with grains := r.1, rngIndex := r.2 }

/-- `SynthEngine::generateCrystalline` (SynthEngine.cpp:136-157). -/
def generateCrystalline (s : SynthEngine) (phase frequency : ℝ) :
    ℝ × SynthEngine :=
  let output := s.wavetable.generate phase
  let output := output + Real.sin (2 * Real.pi * phase * 2.76) * 0.15
    + Real.sin (2 * Real.pi * phase * 5.4) * 0.1
    + Real.sin (2 * Real.pi * phase * 8.93) * 0.05
  let f0 := SynthFilter.setStateVariable (frequency * 4) 2 44100 (s.filters 0)
  let lp := SynthFilter.processLowpass output f0
  let cp := Chorus.process lp.1 s.chorus
  let rp := Reverb.process (cp.1 * 0.3) s.reverb
  (cp.1 * 0.6 + rp.1 * 0.4,
   { s with filters := Function.update s.filters 0 lp.2, chorus := cp.2,
            reverb := rp.2 })

/-- One of the three detuned-saw layer iterations of
`SynthEngine::generateSilkPad` (SynthEngine.cpp:164-178). -/
def silkLayer (frequency : ℝ) (i : ℕ) (l : Layer) (flt : SynthFilter) :
    ℝ × Layer × SynthFilter :=
  let p0 := l.phase + (frequency * (1 + l.detune)) / 44100
  let p := if 1 ≤ p0 then p0 - 1 else p0
  let saw := 2 * p - 1
  let flt := SynthFilter.setStateVariable (800 + (i : ℝ) * 200) 3 44100 flt
  let bp := SynthFilter.processBandpass saw flt
  (bp.1 * (1 / ((i : ℝ) + 1)), { l with phase := p }, bp.2)

/-- `SynthEngine::generateSilkPad` (SynthEngine.cpp:159-200). -/
def generateSilkPad (s : SynthEngine) (phase frequency : ℝ) :
    ℝ × SynthEngine :=
  let r0 := silkLayer frequency 0 (s.layers 0) (s.filters 0)
  let r1 := silkLayer frequency 1 (s.layers 1) (s.filters 1)
  let r2 := silkLayer frequency 2 (s.layers 2) (s.filters 2)
  let output := r0.1 + r1.1 + r2.1
  let cutoff := 2000 + Real.sin (phase * 0.1) * 1000
  let f3 := SynthFilter.setMoogLadder cutoff 0.3 44100 (s.filters 3)
  let ml := SynthFilter.processMoogLadder output f3
  let ch := { s.chorus with rate := 0.3, depth := 0.4, mix := 0.5 }
  let cp := Chorus.process ml.1 ch
  let rv := { s.reverb with roomSize := 0.8, wetLevel := 0.4 }
  let rp := Reverb.process cp.1 rv
  let output := analogSaturate (cp.1 * 0.5 + rp.1 * 0.5)
  (output * 0.4 * s.velocity,
   { s with
       layers := Function.update (Function.update
         (Function.update s.layers 0 r0.2.1) 1 r1.2.1) 2 r2.2.1
       filters := Function.update (Function.update (Function.update
         (Function.update s.filters 0 r0.2.2) 1 r1.2.2) 2 r2.2.2) 3 ml.2
       chorus := cp.2
       reverb := rp.2 })

/-- `SynthEngine::generateNebulaDrift` (SynthEngine.cpp:202-265); note the
source advances `lfos[0]` twice (lines 210 and 253). -/
def generateNebulaDrift (s : SynthEngine) (phase frequency : ℝ) :
    ℝ × SynthEngine :=
  let wavetableOut := s.wavetable.generate phase
  let r0 := (s.lfos 0).process
  let warpAmount := r0.1 * 0.5 + 0.5
  let wavetableOut := spectralWarp wavetableOut (warpAmount * 2)
  let subPhase := phase * 0.5
  let subOsc := Real.sin (subPhase * 2 * Real.pi)
  let subOsc := analogSaturate (subOsc * 2) * 0.3
  let shimmer := ∑ i ∈ Finset.Ico (5 : ℕ) 12,
    Real.sin (phase * (i : ℝ) * (2 * Real.pi)) * (1 / ((i : ℝ) * (i : ℝ)))
  let r1 := (s.lfos 1).process
  let shimmer := shimmer * (r1.1 * 0.15)
  let r2 := (s.lfos 2).process
  let shepardPos := r2.1 * 0.5 + 0.5
  let harmonicArray : ℕ → ℝ := fun i =>
    (s.harmonics i).amplitude
      * Real.sin (cfmod (shepardPos + (i : ℝ) / 32) 1 * Real.pi)
  let spectralMix := ∑ i ∈ Finset.range 8,
    Real.sin (phase * ((i : ℝ) + 1) * (2 * Real.pi)) * harmonicArray i
  let output := wavetableOut * 0.4 + subOsc + shimmer + spectralMix * 0.2
  let r3 := (s.lfos 3).process
  let formantFreq := frequency * (2 + r3.1)
  let f0 := SynthFilter.setStateVariable formantFreq 3 44100 (s.filters 0)
  let bp := SynthFilter.processBandpass output f0
  let r0b := r0.2.process
  let d := { s.delay with time := 0.1 + r0b.1 * 0.05, feedback := 0.7,
                          mix := 0.4 }
  let dp := DelayLine.process bp.1 d
  let rv := { s.reverb with roomSize := 0.95, damping := 0.3, wetLevel := 0.5 }
  let rp := Reverb.process dp.1 rv
  let output := dp.1 * 0.5 + rp.1 * 0.5
  (softClip (output * 0.6),
   { s with
       lfos := Function.update (Function.update (Function.update
         (Function.update s.lfos 0 r0b.2) 1 r1.2) 2 r2.2) 3 r3.2
       filters := Function.update s.filters 0 bp.2
       delay := dp.2
       reverb := rp.2 })

/-- `SynthEngine::generateLiquidBass` (SynthEngine.cpp:267-305). -/
def generateLiquidBass (s : SynthEngine) (phase frequency : ℝ) :
    ℝ × SynthEngine :=
  let fundamental := Real.sin (2 * Real.pi * phase)
  let l0 := s.layers 0
  let p0 := l0.phase + (frequency * 0.5) / 44100
  let p0 := if 1 ≤ p0 then p0 - 1 else p0
  let sub := Real.sin (2 * Real.pi * p0)
  let second := Real.sin (4 * Real.pi * phase) * 0.3
  let output := fundamental * 0.6 + sub * 0.5 + second * 0.2
  let warp := |output| ^ (1.5 : ℝ) * (if 0 < output then 1 else -1)
  let output := mixLayers output warp 0.3
  let envFollow := |output| * 2 + 0.5
  let cutoff := 200 + envFollow * 500
  let f0 := SynthFilter.setMoogLadder cutoff (0.4 + s.velocity * 0.3) 44100
    (s.filters 0)
  let ml := SynthFilter.processMoogLadder output f0
  let output := analogSaturate (ml.1 * 2) * 0.5
  let ch := { s.chorus with rate := 0.1, depth := 0.1, mix := 0.1 }
  let cp := Chorus.process output ch
  (cp.1 * 0.6,
   { s with layers := Function.update s.layers 0 { l0 with phase := p0 }
            filters := Function.update s.filters 0 ml.2
            chorus := cp.2 })

/-- `SynthEngine::generatePlasmaCore` (SynthEngine.cpp:307-373); the
function-local statics `feedbackBuffer`, `combBuffer`, `combIndex` are the
`plasma*` state fields. -/
def generatePlasmaCore (s : SynthEngine) (phase frequency : ℝ) :
    ℝ × SynthEngine :=
  let wt1 := s.wavetable.generate phase
  let wt2Phase := phase * 1.01
  let wt2 := s.wavetable.generate wt2Phase
  let r0 := (s.lfos 0).process
  let modDepth := 0.5 + r0.1 * 0.3
  let fm1 := Real.sin ((phase + wt2 * modDepth) * 2 * Real.pi)
  let fm2 := Real.sin ((wt2Phase + wt1 * modDepth) * 2 * Real.pi)
  let oddHarmonics := ∑ k ∈ Finset.range 5,
    Real.sin (phase * ((2 * (k : ℝ) + 1)) * (2 * Real.pi)) / (2 * (k : ℝ) + 1)
  let evenHarmonics := ∑ k ∈ Finset.range 4,
    Real.sin (phase * ((2 * (k : ℝ) + 2)) * (2 * Real.pi))
      / ((2 * (k : ℝ) + 2) * 2)
  let r1 := (s.lfos 1).process
  let morphPos := r1.1 * 0.5 + 0.5
  let harmonicMix := oddHarmonics * (1 - morphPos) + evenHarmonics * morphPos
  let resonantSignal := fm1 + s.plasmaFeedbackBuffer * 0.3
  let f0 := SynthFilter.setMoogLadder (frequency * 2.5) 3.5 44100 (s.filters 0)
  let ml := SynthFilter.processMoogLadder resonantSignal f0
  let output := fm1 * 0.3 + fm2 * 0.3 + harmonicMix * 0.2 + ml.1 * 0.2
  let r2 := (s.lfos 2).process
  let warpAmount := 1 + r2.1
  let output := spectralWarp output warpAmount
  let output := analogSaturate (output * 2) * 0.7
  let combDelay := max 1 (min 255 (itrunc (frequency / 100)))
  let combOut := s.plasmaCombBuffer
    ((s.plasmaCombIndex + 256 - combDelay.toNat) % 256)
  let combBuffer := Function.update s.plasmaCombBuffer s.plasmaCombIndex
    (output + combOut * 0.4)
  let output := output + combOut * 0.3
  let output := hardClip (output * 1.5) * 0.6
  (output * s.velocity,
   { s with
       lfos := Function.update (Function.update
         (Function.update s.lfos 0 r0.2) 1 r1.2) 2 r2.2
       filters := Function.update s.filters 0 ml.2
       plasmaFeedbackBuffer := ml.1 * 0.7
       plasmaCombBuffer := combBuffer
       plasmaCombIndex := (s.plasmaCombIndex + 1) % 256 })

/-- The per-grain body of `SynthEngine::generateCloudNine`
(SynthEngine.cpp:390-414), accumulating the granular output. -/
def cloudGrainLoop : List Grain → ℝ × List Grain
  | [] => (0, [])
  | g :: rest =>
      if g.active then
        let env := Real.exp (-(((g.envelope - 0.5) * 4) ^ 2))
        let idx := ((itrunc (g.position * 8192)).tmod 8192).toNat
        let sample := grainBuf idx
        let frozen := Real.sin (2 * Real.pi * g.position * g.pitch)
        let sample := mixLayers sample frozen 0.5
        let contrib := sample * env * g.amplitude * 0.1
        let g2 := { g with envelope := g.envelope + 1 / (g.duration * 44100)
                           position := g.position + g.pitch / 44100 }
        let g3 := if 1 ≤ g2.envelope then { g2 with active := false } else g2
        let r := cloudGrainLoop rest
        (contrib + r.1, g3 :: r.2)
      else
        let r := cloudGrainLoop rest
        (r.1, g :: r.2)

/-- `SynthEngine::generateCloudNine` (SynthEngine.cpp:375-443); the grain
trigger threshold is `static_cast<int>(44100/30) = 1470`. -/
def generateCloudNine (s : SynthEngine) (phase _frequency : ℝ) :
    ℝ × SynthEngine :=
  let grainCounter := s.grainCounter + 1
  let trig := 1470 < grainCounter
  let s1 := if trig then SynthEngine.triggerGrain
    { s with grainCounter := 0 } else { s with grainCounter := grainCounter }
  let gl := cloudGrainLoop s1.grains
  let output := gl.1
  let pad := s1.wavetable.generate phase * 0.2
  let output := output + pad
  let f0 := SynthFilter.setStateVariable
    (800 + Real.sin (phase * 0.05) * 400) 3 44100 (s1.filters 0)
  let lp := SynthFilter.processLowpass output f0
  let ch := { s1.chorus with rate := 0.2, depth := 0.5, mix := 0.6 }
  let cp := Chorus.process lp.1 ch
  let rv := { s1.reverb with roomSize := 0.95, damping := 0.7, wetLevel := 0.6 }
  let rp := Reverb.process cp.1 rv
  let d := { s1.delay with time := 0.375, feedback := 0.4, mix := 0.3 }
  let dp := DelayLine.process cp.1 d
  ((cp.1 * 0.3 + rp.1 * 0.5 + dp.1 * 0.2) * 0.4,
   { s1 with grains := gl.2, filters := Function.update s1.filters 0 lp.2,
             chorus := cp.2, reverb := rp.2, delay := dp.2 })

/-- `SynthEngine::generateQuantumFlux` (SynthEngine.cpp:445-509); the
statics `syncPhase`/`frozenSample` are the `quantum*` fields.  The engine's
`sampleCounter` is never incremented anywhere, so the harmonic
randomization (`sampleCounter % 128 == 0`) fires on every call. -/
def generateQuantumFlux (s : SynthEngine) (phase frequency : ℝ) :
    ℝ × SynthEngine :=
  let wt := s.wavetable.generate phase
  let glitch := s.sampleCounter.tmod 128 = 0
  let harmonics1 : ℕ → Harmonic := if glitch then
      fun i => if i < 8 then
        { s.harmonics i with amplitude := s.rngStream (s.rngIndex + i) * 0.5 + 0.5 }
      else s.harmonics i
    else s.harmonics
  let rngIdx1 := if glitch then s.rngIndex + 8 else s.rngIndex
  let harmonicGlitch := ∑ i ∈ Finset.Ico (1 : ℕ) 8,
    Real.sin (phase * (i : ℝ) * (2 * Real.pi)) * (harmonics1 i).amplitude / (i : ℝ)
  let syncPhase := if phase < 0.01 then 0 else s.quantumSyncPhase
  let syncPhase := syncPhase + (frequency * 1.5) / 44100
  let syncPhase := if 1 ≤ syncPhase then syncPhase - 1 else syncPhase
  let syncOsc := Real.sin (syncPhase * 2 * Real.pi)
  let r0 := (s.lfos 0).process
  let formantFreq := 700 + r0.1 * 1000
  let f0 := SynthFilter.setStateVariable formantFreq 5 44100 (s.filters 0)
  let bp0 := SynthFilter.processBandpass syncOsc f0
  let noiseMod := s.rngStream rngIdx1 * 0.1
  let rngIdx2 := rngIdx1 + 1
  let f1 := SynthFilter.setStateVariable (frequency * 4) 8 44100 (s.filters 1)
  let bp1 := SynthFilter.processBandpass (noiseMod + wt * 0.3) f1
  let output := wt * 0.3 + harmonicGlitch * 0.3 + bp0.1 * 0.2 + bp1.1 * 0.2
  let r1 := (s.lfos 1).process
  let r2 := (s.lfos 2).process
  let bc := { s.bitCrusher with bitDepth := 8 + r1.1 * 4,
                                sampleRateReduction := 4 + r2.1 * 8 }
  let bcp := BitCrusher.process output bc
  let output := bcp.1
  let freezeDraw := s.rngStream rngIdx2
  let rngIdx3 := rngIdx2 + 1
  let frozenSample := if 0.98 < freezeDraw then output else s.quantumFrozenSample
  let output := output * 0.7 + frozenSample * 0.3
  let pp := Phaser.process output s.phaser
  let output := hardClip (pp.1 * 2) * 0.5
  (output * s.velocity,
   { s with
       harmonics := harmonics1
       rngIndex := rngIdx3
       quantumSyncPhase := syncPhase
       quantumFrozenSample := frozenSample
       lfos := Function.update (Function.update
         (Function.update s.lfos 0 r0.2) 1 r1.2) 2 r2.2
       filters := Function.update (Function.update s.filters 0 bp0.2) 1 bp1.2
       bitCrusher := bcp.2
       phaser := pp.2 })

/-- One resonant-string iteration of `SynthEngine::generateCrystalMatrix`
(SynthEngine.cpp:533-541). -/
def crystalString (frequency excitation : ℝ) (i : ℕ) (st : KarplusStrong) :
    ℝ × KarplusStrong :=
  let st := KarplusStrong.setFrequency (frequency * ((i : ℝ) + 1)) 44100 st
  let st := { st with damping := 0.1 }
  let pr := KarplusStrong.process (excitation / ((i : ℝ) + 1)) st
  (pr.1 * Real.exp (-(i : ℝ) * 0.3), pr.2)

/-- One resonant-filter-bank iteration of
`SynthEngine::generateCrystalMatrix` (SynthEngine.cpp:553-559). -/
def crystalFilterBank (frequency input : ℝ) (i : ℕ) (flt : SynthFilter) :
    ℝ × SynthFilter :=
  let flt := SynthFilter.setStateVariable (frequency * (2 + (i : ℝ) * 1.5))
    12 44100 flt
  let bp := SynthFilter.processBandpass input flt
  (bp.1 * 0.3, bp.2)

/-- `SynthEngine::generateCrystalMatrix` (SynthEngine.cpp:511-593); the
static `pitchBuffer`/`pitchIndex` are the `crystal*` fields. -/
def generateCrystalMatrix (s : SynthEngine) (phase frequency : ℝ) :
    ℝ × SynthEngine :=
  let exciteP := phase < 0.01
  let excitation := if exciteP then
      (∑ h ∈ Finset.Icc (1 : ℕ) 5,
        Real.sin (s.rngStream (s.rngIndex + (h - 1)) * Real.pi) / (h : ℝ))
        * s.velocity
    else 0
  let rngIdx1 := if exciteP then s.rngIndex + 5 else s.rngIndex
  let strings0 := if exciteP then
      fun i : Fin 4 =>
        KarplusStrong.setFrequency (frequency * ((i : ℕ) + 1 : ℕ)) 44100
          (s.strings i)
    else s.strings
  let st0 := crystalString frequency excitation 0 (strings0 0)
  let st1 := crystalString frequency excitation 1 (strings0 1)
  let st2 := crystalString frequency excitation 2 (strings0 2)
  let st3 := crystalString frequency excitation 3 (strings0 3)
  let stringOut := st0.1 + st1.1 + st2.1 + st3.1
  let additiveOut := ∑ h ∈ Finset.Icc (1 : ℕ) 12,
    Real.sin (phase * (h : ℝ) * (2 * Real.pi))
      * Real.exp (-phase * 5 * (h : ℝ)) / ((h : ℝ) * (h : ℝ))
  let fb0 := crystalFilterBank frequency (stringOut + additiveOut) 0 (s.filters 0)
  let fb1 := crystalFilterBank frequency (stringOut + additiveOut) 1 (s.filters 1)
  let fb2 := crystalFilterBank frequency (stringOut + additiveOut) 2 (s.filters 2)
  let filterBank := fb0.1 + fb1.1 + fb2.1
  let output := stringOut * 0.4 + additiveOut * 0.3 + filterBank * 0.3
  let pb := Function.update s.crystalPitchBuffer s.crystalPitchIndex output
  let cascade := ∑ i ∈ Finset.Icc (1 : ℕ) 3,
    pb ((((s.crystalPitchIndex : ℤ)
      - min 2047 (max 1 (itrunc (44100 / (frequency * ((i : ℝ) * 2))))) + 2048).tmod
        2048).toNat) * 0.2 / (i : ℝ)
  let output := output + cascade
  let rv := { s.reverb with roomSize := 0.7, damping := 0.2, wetLevel := 0.4 }
  let rp := Reverb.process output rv
  let enhanced := output + analogSaturate (output * 3) * 0.1
  ((enhanced * 0.6 + rp.1 * 0.4) * 0.7,
   { s with
       rngIndex := rngIdx1
       strings := Function.update (Function.update (Function.update
         (Function.update strings0 0 st0.2) 1 st1.2) 2 st2.2) 3 st3.2
       filters := Function.update (Function.update
         (Function.update s.filters 0 fb0.2) 1 fb1.2) 2 fb2.2
       crystalPitchBuffer := pb
       crystalPitchIndex := (s.crystalPitchIndex + 1) % 2048
       reverb := rp.2 })

/-- Accumulator threaded through the grain loop of
`SynthEngine::generateSolarWind`: random cursor, the static
`frozenSpectrum`, and the running granular output. -/
structure SolarLoopState where
  idx : ℕ
  frozen : ℕ → ℝ
  acc : ℝ

/-- The per-grain body of `SynthEngine::generateSolarWind`
(SynthEngine.cpp:606-632): envelope step first, possible deactivation
(`continue`), Gaussian window, occasional spectral freeze (a random draw
per surviving grain), mix with the frozen bin, pan-weighted accumulate. -/
def solarGrainLoop (stream : ℕ → ℝ) (phase : ℝ) :
    List Grain → SolarLoopState → List Grain × SolarLoopState
  | [], st => ([], st)
  | g :: rest, st =>
      if g.active then
        let g2 := { g with envelope := g.envelope + 1 / (g.duration * 44100) }
        if 1 ≤ g2.envelope then
          let r := solarGrainLoop stream phase rest st
          ({ g2 with active := false } :: r.1, r.2)
        else
          let window := Real.exp (-5 * (g2.envelope - 0.5) ^ 2)
          let grainPhase := phase * g2.pitch + g2.position
          let grainSample := Real.sin (grainPhase * 2 * Real.pi) * window
            * g2.amplitude
          let fidx := (itrunc (g2.position * 31)).toNat
          let frozen2 := if 0.99 < stream st.idx then
              Function.update st.frozen fidx grainSample
            else st.frozen
          let grainSample2 := grainSample * 0.7 + frozen2 fidx * 0.3
          let r := solarGrainLoop stream phase rest
            { idx := st.idx + 1, frozen := frozen2,
              acc := st.acc + grainSample2 * (1 - |g2.pan|) }
          (g2 :: r.1, r.2)
      else
        let r := solarGrainLoop stream phase rest st
        (g :: r.1, r.2)

/-- One stage of the static all-pass diffusion network of
`SynthEngine::generateSolarWind` (SynthEngine.cpp:663-675). -/
def solarDiffStep (i : ℕ) (blurred : ℝ) (buf : ℕ → ℝ) (idx : ℕ) :
    ℝ × (ℕ → ℝ) × ℕ :=
  let delayTime : ℤ := 37 + (i : ℤ) * 89
  let buf2 := Function.update buf idx blurred
  let delayed := buf2 ((((idx : ℤ) - delayTime + 512).tmod 512).toNat)
  (delayed * 0.7 + blurred * 0.3, buf2, (idx + 1) % 512)

/-- `SynthEngine::generateSolarWind` (SynthEngine.cpp:595-688); the engine's
`sampleCounter` is never incremented, so `sampleCounter % 64 == 0` holds and
a grain is triggered on every call.  The locals `panLfo`/`dopplerShift`
(lines 678-680) are computed and never used, and are omitted. -/
def generateSolarWind (s : SynthEngine) (phase frequency : ℝ) :
    ℝ × SynthEngine :=
  let s1 := if s.sampleCounter.tmod 64 = 0 then s.triggerGrain else s
  let gl := solarGrainLoop s1.rngStream phase s1.grains
    { idx := s1.rngIndex, frozen := s1.solarFrozenSpectrum, acc := 0 }
  let granularOut := gl.2.acc
  let noiseEnv := |Real.sin (phase * 0.1 * Real.pi)|
  let noiseDraw := s1.rngStream gl.2.idx
  let filteredNoise := noiseDraw * noiseEnv * 0.1
  let breathFreq := 200 + Real.sin (phase * 0.05 * Real.pi) * 800 + frequency
  let f0 := SynthFilter.setStateVariable breathFreq 2 44100 (s1.filters 0)
  let bp := SynthFilter.processBandpass filteredNoise f0
  let whisper := ∑ h ∈ Finset.Icc (7 : ℕ) 15,
    Real.sin (phase * (h : ℝ) * (2 * Real.pi)) * (1 / ((h : ℝ) * (h : ℝ)))
  let r0 := (s1.lfos 0).process
  let whisper := whisper * (r0.1 * 0.1)
  let output := granularOut * 0.4 + bp.1 * 0.3 + whisper * 0.3
  let rv := { s1.reverb with roomSize := 0.99, damping := 0.1, wetLevel := 0.8 }
  let rp := Reverb.process output rv
  let d0 := solarDiffStep 0 output (s1.solarDiffusionBuffer 0)
    (s1.solarDiffusionIndex 0)
  let d1 := solarDiffStep 1 d0.1 (s1.solarDiffusionBuffer 1)
    (s1.solarDiffusionIndex 1)
  let d2 := solarDiffStep 2 d1.1 (s1.solarDiffusionBuffer 2)
    (s1.solarDiffusionIndex 2)
  let d3 := solarDiffStep 3 d2.1 (s1.solarDiffusionBuffer 3)
    (s1.solarDiffusionIndex 3)
  let blurred := d3.1
  let dm := Dimension.process rp.1 s1.dimension
  let output := blurred * 0.3 + rp.1 * 0.5 + (dm.1.1 + dm.1.2) * 0.1
  (softClip (output * 0.5),
   { s1 with
       grains := gl.1
       rngIndex := gl.2.idx + 1
       solarFrozenSpectrum := gl.2.frozen
       filters := Function.update s1.filters 0 bp.2
       lfos := Function.update s1.lfos 0 r0.2
       reverb := rp.2
       solarDiffusionBuffer := Function.update (Function.update (Function.update
         (Function.update s1.solarDiffusionBuffer 0 d0.2.1) 1 d1.2.1) 2 d2.2.1)
         3 d3.2.1
       solarDiffusionIndex := Function.update (Function.update (Function.update
         (Function.update s1.solarDiffusionIndex 0 d0.2.2) 1 d1.2.2) 2 d2.2.2)
         3 d3.2.2
       dimension := dm.2 })

/-- The harmonic boost of `SynthEngine::generateVoidResonance`
(SynthEngine.cpp:705-713): octaves (h = 2, 4) by 1.5, the fifth (h = 3)
by 1.2. -/
def voidBoost (h : ℕ) : ℝ :=
  if h = 2 ∨ h = 4 then 1.5 else if h = 3 then 1.2 else 1

/-- `SynthEngine::generateVoidResonance` (SynthEngine.cpp:690-774); the
dead local `subFreq` (line 695) is omitted. -/
def generateVoidResonance (s : SynthEngine) (phase frequency : ℝ) :
    ℝ × SynthEngine :=
  let subPhase := phase * 0.5
  let subBass := Real.sin (subPhase * 2 * Real.pi)
  let subSubPhase := phase * 0.25
  let subSub := Real.sin (subSubPhase * 2 * Real.pi) * 0.5
  let trackedHarmonics := ∑ h ∈ Finset.Icc (2 : ℕ) 5,
    Real.sin (phase * (h : ℝ) * (2 * Real.pi)) * (1 / (h : ℝ) * voidBoost h)
  let wtOut := s.wavetable.generate phase
  let r0 := (s.lfos 0).process
  let formant1 := 700 + r0.1 * 500
  let r1 := (s.lfos 1).process
  let formant2 := 1220 + r1.1 * 800
  let f0 := SynthFilter.setStateVariable formant1 4 44100 (s.filters 0)
  let f1 := SynthFilter.setStateVariable formant2 4 44100 (s.filters 1)
  let v1 := SynthFilter.processBandpass wtOut f0
  let v2 := SynthFilter.processBandpass wtOut f1
  let formantMorph := v1.1 * 0.5 + v2.1 * 0.5
  let r2 := (s.lfos 2).process
  let pulseWidth := 0.3 + r2.1 * 0.2
  let pulsePhase := cfmod phase 1
  let pulseWave : ℝ := if pulsePhase < pulseWidth then 1 else -1
  let f2 := SynthFilter.setMoogLadder (frequency * 4) 4 44100 (s.filters 2)
  let mp := SynthFilter.processMoogLadder pulseWave f2
  let output := (subBass * 0.4 + subSub * 0.2) + trackedHarmonics * 0.15
    + formantMorph * 0.15 + mp.1 * 0.1
  let f3 := SynthFilter.setStateVariable 120 0.7 44100 (s.filters 3)
  let lp := SynthFilter.processLowpass output f3
  let lowBand := softClip (lp.1 * 2) * 0.5
  let midBand := output - lowBand
  let midBand := softClip (midBand * 1.5) * 0.6
  let output := lowBand + midBand
  let hp := SynthFilter.processHighpass output lp.2
  let tilt := output - hp.1 * 0.3
  let dm0 := { s.dimension with size := 0.3, diffusion := 0.5 }
  let dm := Dimension.process tilt dm0
  let rv := { s.reverb with roomSize := 0.7, damping := 0.8, wetLevel := 0.15 }
  let rp := Reverb.process ((dm.1.1 + dm.1.2) * 0.5) rv
  let output := tilt * 0.8 + rp.1 * 0.2
  (softClip (output * 0.7) * s.velocity,
   { s with
       lfos := Function.update (Function.update
         (Function.update s.lfos 0 r0.2) 1 r1.2) 2 r2.2
       filters := Function.update (Function.update (Function.update
         (Function.update s.filters 0 v1.2) 1 v2.2) 2 mp.2) 3 hp.2
       dimension := dm.2
       reverb := rp.2 })

/-- The mode dispatch switch of `SynthEngine::generateSample`
(SynthEngine.cpp:117-130): indices 0..9 select a generator, anything else
yields 0. -/
def modeSample (s : SynthEngine) (phase frequency : ℝ) (modeIndex : ℤ) :
    ℝ × SynthEngine :=
  if modeIndex = 0 then generateCrystalline s phase frequency
  else if modeIndex = 1 then generateSilkPad s phase frequency
  else if modeIndex = 2 then generateNebulaDrift s phase frequency
  else if modeIndex = 3 then generateLiquidBass s phase frequency
  else if modeIndex = 4 then generatePlasmaCore s phase frequency
  else if modeIndex = 5 then generateCloudNine s phase frequency
  else if modeIndex = 6 then generateQuantumFlux s phase frequency
  else if modeIndex = 7 then generateCrystalMatrix s phase frequency
  else if modeIndex = 8 then generateSolarWind s phase frequency
  else if modeIndex = 9 then generateVoidResonance s phase frequency
  else (0, s)

/-- `SynthEngine::generateSample` (SynthEngine.cpp:107-134): track the last
frequency, dispatch on the mode index, and professional limiting — the
final output always passes through `softClip` before return. -/
def SynthEngine.generateSample (s : SynthEngine) (phase frequency : ℝ)
    (modeIndex : ℤ) : ℝ × SynthEngine :=
  let s1 := if 0.1 < |frequency - s.lastFrequency| then
      { s with lastFrequency := frequency }
    else s
  let r := modeSample s1 phase frequency modeIndex
  (softClip r.1, r.2)

/-- A full pool used as the concrete input of the steal witness. -/
def stealPool : List Voice :=
  [{ active := true, noteNumber := 48, amplitude := 0.6 },
   { active := true, noteNumber := 50, amplitude := 0.2 },
   { active := true, noteNumber := 52, amplitude := 0.2 },
   { active := true, noteNumber := 53, amplitude := 0.9 },
   { active := true, noteNumber := 55, amplitude := 0.4 },
   { active := true, noteNumber := 57, amplitude := 0.3 },
   { active := true, noteNumber := 59, amplitude := 0.8 },
   { active := true, noteNumber := 60, amplitude := 0.7 }]

/-- C3 counterexample pool: one active voice on note 60 with phase 0.3. -/
def retrigPool : List Voice :=
  [{ active := true, noteNumber := 60, frequency := 261, phase := 0.3,
     targetAmplitude := 0.5, ampEnvStage := .Sustain, ampEnvLevel := 0.7 },
   {}, {}, {}, {}, {}, {}, {}]

/-- A voice in Release with level 0, bound to note 60, for the C4 witness. -/
def releasePoolVoice : Voice :=
  { active := true, noteNumber := 60, ampEnvStage := .Release, ampEnvLevel := 0 }

/-- An all-free pool of 8 voices, PluginProcessor.cpp:19-22. -/
def c8Pool : List Voice := [{}, {}, {}, {}, {}, {}, {}, {}]

/-- Ten distinct held notes, for the C10 witness. -/
def tenHeld : MonoState :=
  { heldMonoNotes := [1, 2, 3, 4, 5, 6, 7, 8, 9, 10], currentMonoNote := 10 }

/-- The grain that `triggerGrain` writes into the first free slot when the
random cursor stands at `idx` (SynthEngine.cpp:1122-1129). -/
def solarGrainNew (stream : ℕ → ℝ) (idx : ℕ) : Grain :=
  { position := stream idx * 0.5 + 0.5
    duration := 0.1 + stream (idx + 1) * 0.2
    pitch := 0.8 + stream (idx + 2) * 0.4
    amplitude := 0.3 + stream (idx + 3) * 0.4
    envelope := 0
    pan := stream (idx + 4) * 0.5
    active := true }

/-- A concrete random stream for the two SolarWind calls of the reset
comparison; every draw lies in the [-1, 1] range of the engine's
`uniform_real_distribution(-1, 1)`.  Draws 0-6 feed the first call
(grain: position 0.25, duration 0.1, pitch 1, amplitude 0.3, pan 0),
draws 7-13 the second (same grain except amplitude 0.5). -/
def c9Stream : ℕ → ℝ := fun i =>
  if i = 0 ∨ i = 7 then -0.5
  else if i = 2 ∨ i = 9 then 0.5
  else if i = 10 then 0.5
  else 0

/-! ### Helper lemmas -/

lemma noteToFrequency_A4 : noteToFrequency 440 0 69 = 440 := by
  have h : ((((69 : ℤ) + 0 * 12 : ℤ) : ℝ) - 69) / 12 = 0 := by norm_num
  rw [noteToFrequency]
  rw [h, Real.rpow_zero, mul_one]

lemma noteToFrequency_A5 : noteToFrequency 440 0 81 = 880 := by
  have h : ((((81 : ℤ) + 0 * 12 : ℤ) : ℝ) - 69) / 12 = 1 := by norm_num
  rw [noteToFrequency]
  rw [h, Real.rpow_one]
  norm_num

lemma noteToFrequency_A4_down : noteToFrequency 440 (-1) 69 = 220 := by
  have h : ((((69 : ℤ) + (-1) * 12 : ℤ) : ℝ) - 69) / 12 = -1 := by norm_num
  rw [noteToFrequency]
  rw [h, Real.rpow_neg_one]
  norm_num

/-- `modifyAt` commutes with projections that the update does not touch. -/
lemma modifyAt_map {α : Type _} (g : Voice → α) (f : Voice → Voice)
    (hg : ∀ v, g (f v) = g v) :
    ∀ (l : List Voice) (i : ℕ), (modifyAt f l i).map g = l.map g := by
  intro l
  induction l with
  | nil => intro i; rfl
  | cons v rest ih =>
      intro i
      cases i with
      | zero => simp [modifyAt, hg]
      | succ j => simp [modifyAt, ih]

/-- If no element of the suffix beats the running minimum, the steal scan
keeps its current candidate. -/
lemma stealScan_stable (l : List Voice) (i0 : ℕ) (m : ℝ) (best : Option ℕ)
    (h : ∀ v ∈ l, ¬(v.amplitude < m)) : stealScan l i0 m best = best := by
  induction l generalizing i0 with
  | nil => rfl
  | cons v rest ih =>
      rw [stealScan, if_neg (h v (List.mem_cons_self v rest))]
      exact ih (i0 + 1) (fun u hu => h u (List.mem_cons_of_mem v hu))

/-- If some element beats the running minimum, the steal scan returns the
first index attaining the minimum amplitude of the suffix. -/
lemma stealScan_min (l : List Voice) :
    ∀ (i0 : ℕ) (m : ℝ) (best : Option ℕ), (∃ v ∈ l, v.amplitude < m) →
    ∃ k, k < l.length ∧ stealScan l i0 m best = some (i0 + k) ∧
      (l.getD k default).amplitude < m ∧
      ∀ v ∈ l, (l.getD k default).amplitude ≤ v.amplitude := by
  induction l with
  | nil => intro i0 m best hex; simp at hex
  | cons v rest ih =>
      intro i0 m best hex
      by_cases hv : v.amplitude < m
      · rw [stealScan, if_pos hv]
        by_cases hrest : ∃ u ∈ rest, u.amplitude < v.amplitude
        · obtain ⟨k, hk, heq, hlt, hmin⟩ := ih (i0 + 1) v.amplitude (some i0) hrest
          refine ⟨k + 1, by simpa using Nat.succ_lt_succ hk, ?_, ?_, ?_⟩
          · rw [heq]; congr 1; omega
          · simpa using lt_trans hlt hv
          · intro u hu
            rcases List.mem_cons.mp hu with h1 | h1
            · subst h1; simpa using hlt.le
            · simpa using hmin u h1
        · push_neg at hrest
          rw [stealScan_stable rest (i0 + 1) v.amplitude (some i0)
            (fun u hu => not_lt.mpr (hrest u hu))]
          refine ⟨0, by simp, by simp, by simpa using hv, ?_⟩
          intro u hu
          rcases List.mem_cons.mp hu with h1 | h1
          · subst h1; simp
          · simpa using hrest u h1
      · rw [stealScan, if_neg hv]
        have hrest : ∃ u ∈ rest, u.amplitude < m := by
          obtain ⟨u, hu, hlt⟩ := hex
          rcases List.mem_cons.mp hu with h1 | h1
          · subst h1; exact absurd hlt hv
          · exact ⟨u, h1, hlt⟩
        obtain ⟨k, hk, heq, hlt, hmin⟩ := ih (i0 + 1) m best hrest
        refine ⟨k + 1, by simpa using Nat.succ_lt_succ hk, ?_, by simpa using hlt, ?_⟩
        · rw [heq]; congr 1; omega
        · intro u hu
          rcases List.mem_cons.mp hu with h1 | h1
          · subst h1
            simpa using le_trans hlt.le (not_lt.mp hv)
          · simpa using hmin u h1

lemma findVoiceForNote_none (voices : List Voice) (n : ℤ)
    (hnote : ∀ v ∈ voices, v.noteNumber ≠ n) :
    findVoiceForNote voices n = none := by
  rw [findVoiceForNote, List.findIdx?_eq_none_iff]
  intro v hv
  simp [hnote v hv]

lemma findFreeVoice_none (voices : List Voice)
    (hact : ∀ v ∈ voices, v.active = true) :
    findFreeVoice voices = none := by
  rw [findFreeVoice, List.findIdx?_eq_none_iff]
  intro v hv
  simp [hact v hv]

/-! ### Claims about the voice pool and dispatcher -/

/-- C2. In polyphonic mode, a note-on arriving when every pool slot is active
(and the note is not already playing) always lands in some slot: a voice with
the lowest current amplitude is selected (whenever any voice is below the
scan's 1.0 starting threshold) and overridden with `active := true`, the new
note number, `frequency = noteToFrequency noteNumber`, `phase = 0`,
`targetAmplitude = velocity`, `amplitude = 0` and the envelope entered at
Attack; no note-on is dropped without allocating or stealing. -/
theorem steal_lowest_amplitude (a4 : ℝ) (shift : ℤ) (voices : List Voice)
    (n : ℤ) (vel : ℝ) (hne : voices ≠ [])
    (hact : ∀ v ∈ voices, v.active = true)
    (hnote : ∀ v ∈ voices, v.noteNumber ≠ n) :
    ∃ i, i < voices.length ∧
      polyNoteOn a4 shift n vel voices
        = modifyAt (noteOnInit a4 shift n vel) voices i ∧
      ((∃ v ∈ voices, v.amplitude < 1) →
        ∀ v ∈ voices, (voices.getD i default).amplitude ≤ v.amplitude) := by
  have hfind := findVoiceForNote_none voices n hnote
  have hfree := findFreeVoice_none voices hact
  by_cases hex : ∃ v ∈ voices, v.amplitude < 1
  · obtain ⟨k, hk, heq, _, hmin⟩ := stealScan_min voices 0 1 none hex
    refine ⟨k, hk, ?_, fun _ => hmin⟩
    simp [polyNoteOn, hfind, hfree, stealVoiceIdx, heq]
  · have hstable : stealScan voices 0 1 none = none := by
      push_neg at hex
      exact stealScan_stable voices 0 1 none
        (fun v hv => not_lt.mpr (hex v hv))
    refine ⟨0, List.length_pos.mpr hne, ?_, fun h => absurd h hex⟩
    simp [polyNoteOn, hfind, hfree, stealVoiceIdx, hstable]


theorem steal_lowest_amplitude_witness :
    ∃ i, i < stealPool.length ∧
      polyNoteOn 440 0 62 0.8 stealPool
        = modifyAt (noteOnInit 440 0 62 0.8) stealPool i ∧
      ((∃ v ∈ stealPool, v.amplitude < 1) →
        ∀ v ∈ stealPool, (stealPool.getD i default).amplitude ≤ v.amplitude) := by
  refine steal_lowest_amplitude 440 0 stealPool 62 0.8 (by simp [stealPool])
    ?_ ?_ <;>
  · intro v hv
    simp only [stealPool, List.mem_cons, List.not_mem_nil, or_false] at hv
    rcases hv with h | h | h | h | h | h | h | h <;> subst h <;> norm_num


/-- C3 counterexample: a duplicate note-on does NOT reset the voice's phase
to 0 — the phase stays at 0.3 (PluginProcessor.cpp:475-478 only writes
`targetAmplitude` and halves `amplitude`). -/
theorem retrigger_phase_counterexample :
    ((polyNoteOn 440 0 60 0.8 retrigPool).getD 0 default).phase = 0.3 ∧
    (0.3 : ℝ) ≠ 0 := by
  constructor
  · simp [polyNoteOn, findVoiceForNote, retrigPool, List.findIdx?_cons,
      modifyAt, retrigger]
  · norm_num

/-- C3 amended. A duplicate note-on retriggers the existing voice in place:
`targetAmplitude` is set to the new velocity and `amplitude` is halved; the
phase is left unchanged (not reset), and no second voice is allocated — the
active flags and note bindings of the whole pool are unchanged, so there is
still exactly one active voice for the note. -/
theorem retrigger_in_place (a4 : ℝ) (shift : ℤ) (voices : List Voice)
    (n : ℤ) (vel : ℝ) (i : ℕ)
    (hi : findVoiceForNote voices n = some i) :
    polyNoteOn a4 shift n vel voices = modifyAt (retrigger vel) voices i ∧
    (polyNoteOn a4 shift n vel voices).map (fun v => v.phase)
      = voices.map (fun v => v.phase) ∧
    (polyNoteOn a4 shift n vel voices).map (fun v => (v.active, v.noteNumber))
      = voices.map (fun v => (v.active, v.noteNumber)) := by
  have hpoly : polyNoteOn a4 shift n vel voices
      = modifyAt (retrigger vel) voices i := by
    simp [polyNoteOn, hi]
  refine ⟨hpoly, ?_, ?_⟩
  · rw [hpoly]
    exact modifyAt_map (fun v => v.phase) (retrigger vel)
      (fun v => rfl) voices i
  · rw [hpoly]
    exact modifyAt_map (fun v => (v.active, v.noteNumber)) (retrigger vel)
      (fun v => rfl) voices i

theorem retrigger_in_place_witness :
    polyNoteOn 440 0 60 0.8 retrigPool
        = modifyAt (retrigger 0.8) retrigPool 0 ∧
    (polyNoteOn 440 0 60 0.8 retrigPool).map (fun v => v.phase)
      = retrigPool.map (fun v => v.phase) ∧
    (polyNoteOn 440 0 60 0.8 retrigPool).map (fun v => (v.active, v.noteNumber))
      = retrigPool.map (fun v => (v.active, v.noteNumber)) :=
  retrigger_in_place 440 0 retrigPool 60 0.8 0
    (by simp [findVoiceForNote, retrigPool, List.findIdx?_cons])

/-- C4. One step of `processEnvelope` can only reach stage Off from Release
(or from Off itself) — Attack, Decay and Sustain never step directly to Off —
and a note-off leaves a matching active voice active, merely moving its
envelope to Release. -/
theorem envelope_release_before_off
    (sampleRate attack decay sustain release : ℝ) (v : Voice) (n : ℤ) :
    ((processEnvelope sampleRate attack decay sustain release v).ampEnvStage
        = .Off → v.ampEnvStage = .Release ∨ v.ampEnvStage = .Off) ∧
    (v.active = true → v.noteNumber = n →
      (noteOffVoice n v).active = true ∧
      (noteOffVoice n v).ampEnvStage = .Release) := by
  constructor
  · intro h
    cases hst : v.ampEnvStage
    case Off => exact Or.inr rfl
    case Release => exact Or.inl rfl
    case Attack =>
      exfalso
      simp only [processEnvelope, hst] at h
      split at h <;> simp at h
    case Decay =>
      exfalso
      simp only [processEnvelope, hst] at h
      split at h <;> simp at h
    case Sustain =>
      exfalso
      simp only [processEnvelope, hst] at h
      simp at h
  · intro ha hn
    simp [noteOffVoice, ha, hn, Voice.stopNote]


theorem envelope_release_before_off_witness :
    (releasePoolVoice.ampEnvStage = .Release ∨
      releasePoolVoice.ampEnvStage = .Off) ∧
    (noteOffVoice 60 releasePoolVoice).active = true ∧
    (noteOffVoice 60 releasePoolVoice).ampEnvStage = .Release := by
  refine ⟨(envelope_release_before_off 44100 0.01 0.1 0.7 0.5
      releasePoolVoice 60).1 ?_,
    (envelope_release_before_off 44100 0.01 0.1 0.7 0.5
      releasePoolVoice 60).2 rfl rfl⟩
  simp only [processEnvelope, releasePoolVoice]
  norm_num

/-- C5. `noteToFrequency` realizes equal temperament
`a4Reference * 2^((note + octaveShift*12 - 69)/12)`: A4 (note 69) maps to
440 Hz, note 81 to 880 Hz, and note 69 with octave shift -1 to 220 Hz. -/
theorem noteToFrequency_equal_temperament :
    noteToFrequency 440 0 69 = 440 ∧ noteToFrequency 440 0 81 = 880 ∧
    noteToFrequency 440 (-1) 69 = 220 :=
  ⟨noteToFrequency_A4, noteToFrequency_A5, noteToFrequency_A4_down⟩

/-- C6. Mono last-note priority: on 60, on 64, off 64 resounds note 60 with
held stack exactly [60]; then off 60 silences (note sentinel -1, empty
stack). -/
theorem mono_last_note_priority :
    (monoNoteOff 64 (monoNoteOn 64 (monoNoteOn 60 monoState0))).heldMonoNotes
        = [60] ∧
    (monoNoteOff 64 (monoNoteOn 64 (monoNoteOn 60 monoState0))).currentMonoNote
        = 60 ∧
    (monoNoteOff 60 (monoNoteOff 64 (monoNoteOn 64
        (monoNoteOn 60 monoState0)))).heldMonoNotes = [] ∧
    (monoNoteOff 60 (monoNoteOff 64 (monoNoteOn 64
        (monoNoteOn 60 monoState0)))).currentMonoNote = -1 := by
  decide

/-- C7 counterexample: the render loop clamps nothing — with voice frequency
50000 Hz (reachable: note 127 at octave shift +2 exceeds 50 kHz) at sample
rate 44100, a phase of 0.9 advances to ≥ 1 even after the single
conditional wrap, so the result is not in [0,1); the spec-mandated clamped
version stays inside. -/
theorem phase_wrap_counterexample :
    1 ≤ advancePhase 44100 0.9 50000 ∧
    advancePhaseSpec 44100 0.9 50000 < 1 := by
  constructor
  · rw [advancePhase]
    rw [if_pos (by norm_num)]
    norm_num
  · rw [advancePhaseSpec]
    rw [if_pos (by norm_num)]
    norm_num

/-- C7 amended. The per-sample phase advance performs no clamping; it adds
`frequency / sampleRate` and wraps with one conditional subtraction, and the
result stays in [0,1) provided the frequency is between 0 and the sample
rate (the claimed 20 Hz–20 kHz clamp does not exist in the code). -/
theorem advancePhase_mem_Ico (sampleRate phase frequency : ℝ)
    (hs : 0 < sampleRate) (hp0 : 0 ≤ phase) (hp1 : phase < 1)
    (hf0 : 0 ≤ frequency) (hf1 : frequency ≤ sampleRate) :
    advancePhase sampleRate phase frequency ∈ Set.Ico (0 : ℝ) 1 := by
  have hinc0 : 0 ≤ frequency * (1 / sampleRate) := by positivity
  have hinc1 : frequency * (1 / sampleRate) ≤ 1 := by
    rw [mul_one_div]
    exact div_le_one_of_le₀ hf1 hs.le
  rw [advancePhase, Set.mem_Ico]
  by_cases h : 1 ≤ phase + frequency * (1 / sampleRate)
  · rw [if_pos h]
    constructor <;> linarith
  · rw [if_neg h]
    push_neg at h
    constructor <;> linarith

theorem advancePhase_mem_Ico_witness :
    advancePhase 44100 0 440 ∈ Set.Ico (0 : ℝ) 1 :=
  advancePhase_mem_Ico 44100 0 440 (by norm_num) (by norm_num) (by norm_num)
    (by norm_num) (by norm_num)


/-- C8 (code bug witness): after a note-on for note 69 and one sample of the
polyphonic render loop, the voice is active and audible
(`ampEnvLevel > 0.001`, frequency 440 Hz), yet `getActiveFrequencies`
returns the empty list, because it filters on `amplitude > 0.01f` and the
render path never raises `amplitude` above 0 (only `ampEnvLevel`). -/
theorem getActiveFrequencies_misses_sounding_voice :
    getActiveFrequencies ((polyNoteOn 440 0 69 0.8 c8Pool).map
        (renderVoiceStep 44100 0.01 0.1 0.7 0.5)) = [] ∧
    (((polyNoteOn 440 0 69 0.8 c8Pool).map
        (renderVoiceStep 44100 0.01 0.1 0.7 0.5)).getD 0 default).active
      = true ∧
    0.001 < (((polyNoteOn 440 0 69 0.8 c8Pool).map
        (renderVoiceStep 44100 0.01 0.1 0.7 0.5)).getD 0 default).ampEnvLevel ∧
    (((polyNoteOn 440 0 69 0.8 c8Pool).map
        (renderVoiceStep 44100 0.01 0.1 0.7 0.5)).getD 0 default).frequency
      = 440 := by
  have hstep : (polyNoteOn 440 0 69 0.8 c8Pool).map
      (renderVoiceStep 44100 0.01 0.1 0.7 0.5)
      = (renderVoiceStep 44100 0.01 0.1 0.7 0.5
          (noteOnInit 440 0 69 0.8 {})) :: [{}, {}, {}, {}, {}, {}, {}] := by
    simp [polyNoteOn, findVoiceForNote, findFreeVoice, c8Pool,
      List.findIdx?_cons, modifyAt, renderVoiceStep]
  rw [hstep]
  refine ⟨?_, ?_, ?_, ?_⟩
  · norm_num [getActiveFrequencies, renderVoiceStep, processEnvelope,
      noteOnInit, Voice.startNote]
  · norm_num [renderVoiceStep, processEnvelope, noteOnInit, Voice.startNote]
  · norm_num [renderVoiceStep, processEnvelope, noteOnInit, Voice.startNote]
  · have h440 := noteToFrequency_A4
    norm_num [renderVoiceStep, processEnvelope, noteOnInit, Voice.startNote,
      h440]

/-- C10. The held-note stack of the monophonic dispatcher never grows past
10 entries: a note-on keeps the length ≤ 10, and when 10 other notes are
already held the oldest (head) entry is silently discarded. -/
theorem mono_stack_bounded (s : MonoState) (n : ℤ)
    (h : s.heldMonoNotes.length ≤ 10) :
    (monoNoteOn n s).heldMonoNotes.length ≤ 10 ∧
    ((s.heldMonoNotes.filter (fun m => m != n)).length = 10 →
      (monoNoteOn n s).heldMonoNotes
        = (s.heldMonoNotes.filter (fun m => m != n)).tail ++ [n]) := by
  have hr : (s.heldMonoNotes.filter (fun m => m != n)).length
      ≤ s.heldMonoNotes.length := List.length_filter_le _ _
  have hlen : (s.heldMonoNotes.filter (fun m => m != n) ++ [n]).length
      = (s.heldMonoNotes.filter (fun m => m != n)).length + 1 := by simp
  constructor
  · rw [monoNoteOn]
    split
    · simp only [List.length_tail, hlen]
      omega
    · rw [hlen]
      omega
  · intro h10
    rw [monoNoteOn]
    rw [if_pos (by rw [hlen]; omega)]
    rcases hcase : s.heldMonoNotes.filter (fun m => m != n) with _ | ⟨a, as⟩
    · rw [hcase] at h10; simp at h10
    · simp


theorem mono_stack_bounded_witness :
    (monoNoteOn 11 tenHeld).heldMonoNotes.length ≤ 10 ∧
    ((tenHeld.heldMonoNotes.filter (fun m => m != 11)).length = 10 →
      (monoNoteOn 11 tenHeld).heldMonoNotes
        = (tenHeld.heldMonoNotes.filter (fun m => m != 11)).tail ++ [11]) :=
  mono_stack_bounded tenHeld 11 (by decide)


/-! ### Claims about the synthesis engine -/

lemma abs_tanh_le_one (x : ℝ) : |Real.tanh x| ≤ 1 := by
  rw [Real.tanh_eq_sinh_div_cosh, abs_div,
    abs_of_pos (Real.cosh_pos x), div_le_one (Real.cosh_pos x)]
  rcases abs_cases (Real.sinh x) with ⟨h, _⟩ | ⟨h, _⟩
  · rw [h]
    exact (Real.sinh_lt_cosh x).le
  · rw [h]
    calc -Real.sinh x = Real.sinh (-x) := (Real.sinh_neg x).symm
      _ ≤ Real.cosh (-x) := (Real.sinh_lt_cosh (-x)).le
      _ = Real.cosh x := Real.cosh_neg x

/-- The saturating nonlinearity is bounded: below 0.7 it is the identity,
otherwise a tanh scaled by 0.8, so its output never leaves [-0.8, 0.8]. -/
lemma softClip_abs_le (x : ℝ) : |softClip x| ≤ 0.8 := by
  rw [softClip]
  split
  · linarith [show |x| < 0.7 by assumption]
  · rw [abs_mul, abs_of_pos (by norm_num : (0 : ℝ) < 0.8)]
    have h := abs_tanh_le_one (x * 1.2)
    nlinarith

/-- C1. For every engine state, every supported algorithm index 0..9, every
phase in [0,1) and every frequency in [20, 20000] Hz, the sample returned by
`SynthEngine::generateSample` lies within [-1.5, 1.5] (it is in fact within
[-0.8, 0.8]); structurally, the returned value is always the image under the
saturating `softClip` nonlinearity of the raw mode output.  (In this
real-number embedding of the float arithmetic every value is finite.) -/
theorem generateSample_bounded (s : SynthEngine) (phase frequency : ℝ)
    (modeIndex : ℤ)
    (_hm0 : 0 ≤ modeIndex) (_hm1 : modeIndex < 10)
    (_hp0 : 0 ≤ phase) (_hp1 : phase < 1)
    (_hf0 : 20 ≤ frequency) (_hf1 : frequency ≤ 20000) :
    |(s.generateSample phase frequency modeIndex).1| ≤ 1.5 ∧
    (s.generateSample phase frequency modeIndex).1
      = softClip (modeSample
          (if 0.1 < |frequency - s.lastFrequency| then
            { s with lastFrequency := frequency } else s)
          phase frequency modeIndex).1 := by
  refine ⟨?_, rfl⟩
  calc |(s.generateSample phase frequency modeIndex).1|
      = |softClip (modeSample
          (if 0.1 < |frequency - s.lastFrequency| then
            { s with lastFrequency := frequency } else s)
          phase frequency modeIndex).1| := rfl
    _ ≤ 0.8 := softClip_abs_le _
    _ ≤ 1.5 := by norm_num

theorem generateSample_bounded_witness :
    |((initEngine fun _ => 0).generateSample 0 440 0).1| ≤ 1.5 ∧
    ((initEngine fun _ => 0).generateSample 0 440 0).1
      = softClip (modeSample
          (if 0.1 < |(440 : ℝ) - (initEngine fun _ => 0).lastFrequency| then
            { initEngine fun _ => 0 with lastFrequency := 440 }
           else initEngine fun _ => 0) 0 440 0).1 :=
  generateSample_bounded (initEngine fun _ => 0) 0 440 0 (by norm_num)
    (by norm_num) (by norm_num) (by norm_num) (by norm_num) (by norm_num)

/-! ### Evaluation lemmas for the SolarWind data path (claim C9) -/

/-- A grain pool with no active grain passes through the SolarWind loop
unchanged. -/
lemma solarGrainLoop_inactive (stream : ℕ → ℝ) (phase : ℝ)
    (l : List Grain) (st : SolarLoopState)
    (h : ∀ g ∈ l, g.active = false) :
    solarGrainLoop stream phase l st = (l, st) := by
  induction l generalizing st with
  | nil => rfl
  | cons g rest ih =>
      rw [solarGrainLoop]
      rw [if_neg (by simp [h g (List.mem_cons_self g rest)])]
      simp [ih st (fun u hu => h u (List.mem_cons_of_mem g hu))]

/-- Combs whose current cell is silent and whose damping memory is empty
contribute nothing to the comb sum. -/
lemma combLoop_fst_zero (roomSize damping input : ℝ) (l : List Comb)
    (h : ∀ c ∈ l, c.buffer c.index = 0) :
    (combLoop roomSize damping input l).1 = 0 := by
  induction l with
  | nil => rfl
  | cons c rest ih =>
      rw [combLoop]
      simp only [combStep, h c (List.mem_cons_self c rest)]
      rw [ih (fun u hu => h u (List.mem_cons_of_mem c hu))]
      ring

/-- After one pass, combs that started with an all-silent buffer, no
damping memory and room to advance still present a silent cell. -/
lemma combLoop_snd_fresh (roomSize damping input : ℝ) (l : List Comb)
    (h : ∀ c ∈ l, (∀ j, c.buffer j = 0) ∧ c.lastOut = 0 ∧ c.index + 1 < c.size) :
    ∀ c2 ∈ (combLoop roomSize damping input l).2,
      c2.buffer c2.index = 0 ∧ c2.lastOut = 0 := by
  induction l with
  | nil => intro c2 h2; simp [combLoop] at h2
  | cons c rest ih =>
      intro c2 h2
      obtain ⟨hbuf, hlast, hsz⟩ := h c (List.mem_cons_self c rest)
      rw [combLoop] at h2
      rcases List.mem_cons.mp h2 with h3 | h3
      · subst h3
        constructor
        · simp only [combStep]
          rw [Nat.mod_eq_of_lt hsz]
          rw [Function.update_noteq (by omega)]
          exact hbuf _
        · simp only [combStep]
          rw [hbuf, hlast]
          ring
      · exact ih (fun u hu => h u (List.mem_cons_of_mem c hu)) c2 h3

/-- An allpass chain fed silence from silent cells returns silence. -/
lemma allpassLoop_fst_zero (l : List Allpass)
    (h : ∀ a ∈ l, a.buffer a.index = 0) :
    (allpassLoop 0 l).1 = 0 := by
  induction l with
  | nil => rfl
  | cons a rest ih =>
      rw [allpassLoop]
      simp only [h a (List.mem_cons_self a rest)]
      have harg : (0 : ℝ) - (0 + 0 * a.feedback) * a.feedback = 0 := by ring
      rw [harg]
      exact ih (fun u hu => h u (List.mem_cons_of_mem a hu))

/-- An allpass chain fed silence keeps all-silent buffers all-silent. -/
lemma allpassLoop_snd_fresh (l : List Allpass)
    (h : ∀ a ∈ l, ∀ j, a.buffer j = 0) :
    ∀ a2 ∈ (allpassLoop 0 l).2, ∀ j, a2.buffer j = 0 := by
  induction l with
  | nil => intro a2 h2; simp [allpassLoop] at h2
  | cons a rest ih =>
      intro a2 h2 j
      have hbuf := h a (List.mem_cons_self a rest)
      rw [allpassLoop] at h2
      rcases List.mem_cons.mp h2 with h3 | h3
      · subst h3
        simp only [hbuf]
        rw [Function.update_apply]
        split
        · ring
        · exact hbuf j
      · have harg : a.buffer a.index - (0 + a.buffer a.index * a.feedback)
            * a.feedback = 0 := by rw [hbuf]; ring
        rw [harg] at h3
        exact ih (fun u hu => h u (List.mem_cons_of_mem a hu)) a2 h3 j

/-- The reverb returns silence when every comb cell is silent with empty
damping memory and every allpass cell is silent. -/
lemma reverbProcess_fst_zero (input : ℝ) (r : Reverb)
    (hcombs : ∀ c ∈ r.combs, c.buffer c.index = 0)
    (haps : ∀ a ∈ r.allpasses, a.buffer a.index = 0) :
    (Reverb.process input r).1 = 0 := by
  rw [Reverb.process]
  simp only [combLoop_fst_zero r.roomSize r.damping input r.combs hcombs]
  rw [zero_mul, allpassLoop_fst_zero r.allpasses haps, zero_mul]

/-- The dimension expander maps silence on a silent buffer to silence, and
keeps its buffer silent. -/
lemma dimensionProcess_zero (d : Dimension)
    (h : ∀ j, d.delayBuffer j = 0) :
    (Dimension.process 0 d).1 = (0, 0) ∧
    ∀ j, (Dimension.process 0 d).2.delayBuffer j = 0 := by
  have hupd : ∀ j, Function.update d.delayBuffer d.writeIndex 0 j = 0 := by
    intro j
    rw [Function.update_apply]
    split
    · rfl
    · exact h j
  constructor
  · simp only [Dimension.process, hupd]
    norm_num
  · intro j
    simp only [Dimension.process]
    exact hupd j


/-- `triggerGrain` on a pool whose first slot is free fills exactly that
slot and advances the random cursor by five draws. -/
lemma triggerGrain_eval (s : SynthEngine) (gf : Grain) (rest : List Grain)
    (hgr : s.grains = gf :: rest) (hgf : gf.active = false) :
    s.triggerGrain
      = { s with grains := solarGrainNew s.rngStream s.rngIndex :: rest
                 rngIndex := s.rngIndex + 5 } := by
  rw [SynthEngine.triggerGrain, hgr]
  simp only [triggerGrainList, hgf, Bool.false_eq_true, if_false, solarGrainNew]

/-- One active, surviving, non-freezing grain at phase 0 contributes its
windowed sine sample once, and the loop continues on the tail. -/
lemma solarGrainLoop_one (stream : ℕ → ℝ) (g : Grain) (rest : List Grain)
    (st : SolarLoopState)
    (hg : g.active = true)
    (henv : ¬ (1 : ℝ) ≤ g.envelope + 1 / (g.duration * 44100))
    (hfr : ¬ (0.99 : ℝ) < stream st.idx) :
    solarGrainLoop stream 0 (g :: rest) st
      = (({ g with envelope := g.envelope + 1 / (g.duration * 44100) }
            :: (solarGrainLoop stream 0 rest
              { idx := st.idx + 1
                frozen := st.frozen
                acc := st.acc + ((Real.sin (g.position * 2 * Real.pi)
                  * Real.exp (-5 * (g.envelope + 1 / (g.duration * 44100)
                    - 0.5) ^ 2) * g.amplitude) * 0.7
                  + st.frozen ((itrunc (g.position * 31)).toNat) * 0.3)
                  * (1 - |g.pan|) }).1),
         (solarGrainLoop stream 0 rest
              { idx := st.idx + 1
                frozen := st.frozen
                acc := st.acc + ((Real.sin (g.position * 2 * Real.pi)
                  * Real.exp (-5 * (g.envelope + 1 / (g.duration * 44100)
                    - 0.5) ^ 2) * g.amplitude) * 0.7
                  + st.frozen ((itrunc (g.position * 31)).toNat) * 0.3)
                  * (1 - |g.pan|) }).2) := by
  rw [solarGrainLoop]
  rw [if_pos hg, if_neg henv]
  simp only [if_neg hfr, zero_mul, zero_add]

/-- Full evaluation of one `generateSolarWind` call at phase 0 on a state
whose first grain slot is free, whose filter 0 / reverb cells / diffusion
read taps / dimension buffer are silent, and whose next grain survives its
first window without a spectral freeze: the output is the soft-clipped,
pan-weighted, windowed sine of the newly triggered grain, scaled by the
mix/diffusion constants; and the parts of the state that the next call
reads are characterized. -/
lemma generateSolarWind_eval (s : SynthEngine) (freq : ℝ)
    (gf : Grain) (rest : List Grain)
    (hsc : s.sampleCounter.tmod 64 = 0)
    (hgr : s.grains = gf :: rest)
    (hgf : gf.active = false)
    (hrest : ∀ g ∈ rest, g.active = false)
    (hdur : ¬ (1 : ℝ) ≤ 0 + 1 / ((0.1 + s.rngStream (s.rngIndex + 1) * 0.2) * 44100))
    (hfreeze : ¬ (0.99 : ℝ) < s.rngStream (s.rngIndex + 5))
    (hfrozen : ∀ j, s.solarFrozenSpectrum j = 0)
    (hf0l : (s.filters 0).low = 0) (hf0b : (s.filters 0).band = 0)
    (hcombs : ∀ c ∈ s.reverb.combs, c.buffer c.index = 0)
    (haps : ∀ a ∈ s.reverb.allpasses, a.buffer a.index = 0)
    (hdim : ∀ j, s.dimension.delayBuffer j = 0)
    (hdiff0 : ∀ X : ℝ, (solarDiffStep 0 X (s.solarDiffusionBuffer 0)
      (s.solarDiffusionIndex 0)).1 = X * 0.3)
    (hdiff1 : ∀ X : ℝ, (solarDiffStep 1 X (s.solarDiffusionBuffer 1)
      (s.solarDiffusionIndex 1)).1 = X * 0.3)
    (hdiff2 : ∀ X : ℝ, (solarDiffStep 2 X (s.solarDiffusionBuffer 2)
      (s.solarDiffusionIndex 2)).1 = X * 0.3)
    (hdiff3 : ∀ X : ℝ, (solarDiffStep 3 X (s.solarDiffusionBuffer 3)
      (s.solarDiffusionIndex 3)).1 = X * 0.3) :
    (generateSolarWind s 0 freq).1
      = softClip (0.0003402
          * (Real.sin ((s.rngStream s.rngIndex * 0.5 + 0.5) * 2 * Real.pi)
          * Real.exp (-5 * (1 / ((0.1 + s.rngStream (s.rngIndex + 1) * 0.2)
              * 44100) - 0.5) ^ 2)
          * (0.3 + s.rngStream (s.rngIndex + 3) * 0.4)
          * (1 - |s.rngStream (s.rngIndex + 4) * 0.5|))) ∧
    (generateSolarWind s 0 freq).2.sampleCounter = s.sampleCounter ∧
    (generateSolarWind s 0 freq).2.lastFrequency = s.lastFrequency ∧
    (generateSolarWind s 0 freq).2.rngStream = s.rngStream ∧
    (generateSolarWind s 0 freq).2.rngIndex = s.rngIndex + 7 ∧
    (∃ g, (generateSolarWind s 0 freq).2.grains = g :: rest) ∧
    ((generateSolarWind s 0 freq).2.filters 0).low = 0 ∧
    ((generateSolarWind s 0 freq).2.filters 0).band = 0 ∧
    (∃ X, (generateSolarWind s 0 freq).2.reverb.combs
      = (combLoop 0.99 0.1 X s.reverb.combs).2) ∧
    (generateSolarWind s 0 freq).2.reverb.allpasses
      = (allpassLoop 0 s.reverb.allpasses).2 ∧
    (generateSolarWind s 0 freq).2.solarFrozenSpectrum = s.solarFrozenSpectrum ∧
    (∀ i : Fin 4, (generateSolarWind s 0 freq).2.solarDiffusionIndex i
      = (s.solarDiffusionIndex i + 1) % 512) ∧
    (∀ i : Fin 4, ∃ v, (generateSolarWind s 0 freq).2.solarDiffusionBuffer i
      = Function.update (s.solarDiffusionBuffer i) (s.solarDiffusionIndex i) v) ∧
    (∀ j, (generateSolarWind s 0 freq).2.dimension.delayBuffer j = 0) := by
  have hcl : ∀ X : ℝ, (combLoop 0.99 0.1 X s.reverb.combs).1 = 0 :=
    fun X => combLoop_fst_zero _ _ _ _ hcombs
  have hal : (allpassLoop 0 s.reverb.allpasses).1 = 0 :=
    allpassLoop_fst_zero _ haps
  have hdm1 : (Dimension.process 0 s.dimension).1 = (0, 0) :=
    (dimensionProcess_zero _ hdim).1
  have hdm2 : ∀ j, (Dimension.process 0 s.dimension).2.delayBuffer j = 0 :=
    (dimensionProcess_zero _ hdim).2
  have hs1 : (if s.sampleCounter.tmod 64 = 0 then s.triggerGrain else s)
      = { s with grains := solarGrainNew s.rngStream s.rngIndex :: rest
                 rngIndex := s.rngIndex + 5 } := by
    rw [if_pos hsc]
    exact triggerGrain_eval s gf rest hgr hgf
  have hin : ∀ st, solarGrainLoop s.rngStream 0 rest st = (rest, st) :=
    fun st => solarGrainLoop_inactive _ _ _ _ hrest
  have hone := solarGrainLoop_one s.rngStream (solarGrainNew s.rngStream s.rngIndex)
    rest { idx := s.rngIndex + 5, frozen := s.solarFrozenSpectrum, acc := 0 }
    rfl hdur hfreeze
  rw [hin] at hone
  simp only [hfrozen, zero_mul, mul_zero, add_zero, zero_add] at hone
  refine ⟨?_, ?_, ?_, ?_, ?_, ?_, ?_, ?_, ?_, ?_, ?_, ?_, ?_, ?_⟩
  · simp only [generateSolarWind, hs1, hone]
    simp only [solarGrainNew, SynthFilter.processBandpass,
      SynthFilter.setStateVariable, Reverb.process, hcl, hal, hdm1,
      zero_mul, mul_zero, zero_add, add_zero, sub_zero, sub_self,
      Real.sin_zero, abs_zero, Finset.sum_const_zero, hf0l, hf0b,
      hdiff0, hdiff1, hdiff2, hdiff3]
    congr 1
    ring
  · simp only [generateSolarWind, hs1, hone]
  · simp only [generateSolarWind, hs1, hone]
  · simp only [generateSolarWind, hs1, hone]
  · simp only [generateSolarWind, hs1, hone]
  · simp only [generateSolarWind, hs1, hone]
    exact ⟨_, rfl⟩
  · simp only [generateSolarWind, hs1, hone, SynthFilter.processBandpass,
      SynthFilter.setStateVariable, Function.update_same,
      zero_mul, mul_zero, zero_add, add_zero, sub_zero, sub_self,
      Real.sin_zero, abs_zero, hf0l, hf0b]
  · simp only [generateSolarWind, hs1, hone, SynthFilter.processBandpass,
      SynthFilter.setStateVariable, Function.update_same,
      zero_mul, mul_zero, zero_add, add_zero, sub_zero, sub_self,
      Real.sin_zero, abs_zero, hf0l, hf0b]
  · simp only [generateSolarWind, hs1, hone, Reverb.process]
    exact ⟨_, rfl⟩
  · simp only [generateSolarWind, hs1, hone, Reverb.process, hcl, zero_mul]
  · simp only [generateSolarWind, hs1, hone]
  · intro i
    fin_cases i <;>
      simp [generateSolarWind, hs1, hone, solarDiffStep]
  · intro i
    fin_cases i <;>
      simp [generateSolarWind, hs1, hone, solarDiffStep]
  · intro j
    simp only [generateSolarWind, hs1, hone, Reverb.process, hcl, hal,
      zero_mul, hdm2]


/-- `generateSample` at frequency 440 on an engine already at
`lastFrequency = 440` skips the frequency-tracking write and dispatches
mode 8 to `generateSolarWind`. -/
lemma generateSample_mode8 (s : SynthEngine) (h : s.lastFrequency = 440) :
    s.generateSample 0 440 8
      = (softClip (generateSolarWind s 0 440).1,
         (generateSolarWind s 0 440).2) := by
  rw [SynthEngine.generateSample]
  simp only [h, modeSample]
  norm_num

lemma c9_initCombs :
    ∀ c ∈ (initEngine c9Stream).reverb.combs,
      (∀ j, c.buffer j = 0) ∧ c.lastOut = 0 ∧ c.index + 1 < c.size := by
  intro c hc
  have hlist : (initEngine c9Stream).reverb.combs
      = [mkComb 1557, mkComb 1617, mkComb 1491, mkComb 1422,
         mkComb 1277, mkComb 1356, mkComb 1188, mkComb 1116] := rfl
  rw [hlist] at hc
  simp only [List.mem_cons, List.not_mem_nil, or_false] at hc
  rcases hc with h | h | h | h | h | h | h | h <;> subst h <;>
    exact ⟨fun j => rfl, rfl, by norm_num [mkComb]⟩

lemma c9_initAllpasses :
    ∀ a ∈ (initEngine c9Stream).reverb.allpasses, ∀ j, a.buffer j = 0 := by
  intro a ha
  have hlist : (initEngine c9Stream).reverb.allpasses
      = [mkAllpass 556, mkAllpass 441, mkAllpass 341, mkAllpass 225] := rfl
  rw [hlist] at ha
  simp only [List.mem_cons, List.not_mem_nil, or_false] at ha
  rcases ha with h | h | h | h <;> subst h <;> exact fun j => rfl

lemma solarDiffStep_fresh (k : ℕ) (idx : ℕ) (buf : ℕ → ℝ)
    (hne : ((((idx : ℤ) - (37 + (k : ℤ) * 89) + 512).tmod 512).toNat) ≠ idx)
    (hz : buf ((((idx : ℤ) - (37 + (k : ℤ) * 89) + 512).tmod 512).toNat) = 0) :
    ∀ X : ℝ, (solarDiffStep k X buf idx).1 = X * 0.3 := by
  intro X
  rw [solarDiffStep]
  simp only [Function.update_noteq hne, hz]
  ring

lemma softClip_id_of_small (x : ℝ) (hx : |x| < 0.7) : softClip x = x := by
  rw [softClip, if_pos hx]

/-- The two soft-clipped SolarWind outputs differ: they are `c * W` with
the same positive window `W ≤ 1` but amplitudes 0.5 and 0.3. -/
lemma c9_value_ne (W : ℝ) (hW0 : 0 < W) (hW1 : W ≤ 1) :
    softClip (softClip (0.0003402
        * (1 * W * (0.3 + 0.5 * 0.4) * (1 - |(0 : ℝ) * 0.5|))))
      ≠ softClip (softClip (0.0003402
        * (1 * W * (0.3 + (0 : ℝ) * 0.4) * (1 - |(0 : ℝ) * 0.5|)))) := by
  have habs : |(0 : ℝ) * 0.5| = 0 := by norm_num
  have h2 : (0.0003402 : ℝ) * (1 * W * (0.3 + 0.5 * 0.4) * (1 - |(0 : ℝ) * 0.5|))
      = 0.0001701 * W := by rw [habs]; ring
  have h1 : (0.0003402 : ℝ) * (1 * W * (0.3 + (0 : ℝ) * 0.4) * (1 - |(0 : ℝ) * 0.5|))
      = 0.00010206 * W := by rw [habs]; ring
  rw [h1, h2]
  have hb2 : |(0.0001701 : ℝ) * W| < 0.7 := by
    rw [abs_of_pos (by nlinarith)]
    nlinarith
  have hb1 : |(0.00010206 : ℝ) * W| < 0.7 := by
    rw [abs_of_pos (by nlinarith)]
    nlinarith
  rw [softClip_id_of_small _ hb2, softClip_id_of_small _ hb1,
    softClip_id_of_small _ hb2, softClip_id_of_small _ hb1]
  intro h
  nlinarith

/-- C9 counterexample: generating one SolarWind (mode 8) sample at phase 0
on a fresh engine, resetting, and generating again at phase 0 yields a
different sample than the fresh engine produced — `reset()` does not clear
the random-generator position (nor filter/reverb/diffusion buffers), so the
second call triggers its grain from later draws of the same stream
(amplitude 0.5 instead of 0.3). -/
theorem reset_not_idempotent_counterexample :
    ((((initEngine c9Stream).generateSample 0 440 8).2.reset).generateSample
        0 440 8).1
      ≠ ((initEngine c9Stream).generateSample 0 440 8).1 := by
  obtain ⟨hv1, hsc2, hlf2, hrs2, hri2, hgr2x, hf0l2, hf0b2, hcombs2x, haps2,
      hfrz2, hdidx2, hdbuf2, hdim2⟩ :=
    generateSolarWind_eval (initEngine c9Stream) 440 {} (List.replicate 31 {})
      rfl
      rfl
      rfl
      (fun g hg => by rw [List.eq_of_mem_replicate hg])
      (by norm_num [initEngine, c9Stream])
      (by norm_num [initEngine, c9Stream])
      (fun j => rfl)
      rfl rfl
      (fun c hc => ((c9_initCombs c hc).1) c.index)
      (fun a ha => c9_initAllpasses a ha a.index)
      (fun j => rfl)
      (fun X => solarDiffStep_fresh 0 0 (fun _ => 0) (by decide) rfl X)
      (fun X => solarDiffStep_fresh 1 0 (fun _ => 0) (by decide) rfl X)
      (fun X => solarDiffStep_fresh 2 0 (fun _ => 0) (by decide) rfl X)
      (fun X => solarDiffStep_fresh 3 0 (fun _ => 0) (by decide) rfl X)
  obtain ⟨g2v, hg2v⟩ := hgr2x
  -- shorthand facts about the post-call state
  have hstream : (generateSolarWind (initEngine c9Stream) 0 440).2.rngStream
      = c9Stream := hrs2.trans rfl
  have hidx7 : (generateSolarWind (initEngine c9Stream) 0 440).2.rngIndex
      = 7 := hri2.trans rfl
  -- hypotheses of the evaluation lemma for the second call (after reset)
  have h2sc : ((generateSolarWind (initEngine c9Stream) 0 440).2.reset).sampleCounter.tmod
      64 = 0 := by
    rw [show ((generateSolarWind (initEngine c9Stream) 0 440).2.reset).sampleCounter
      = (generateSolarWind (initEngine c9Stream) 0 440).2.sampleCounter from rfl, hsc2]
    rfl
  have h2gr : ((generateSolarWind (initEngine c9Stream) 0 440).2.reset).grains
      = { g2v with active := false } :: List.replicate 31 {} := by
    rw [show ((generateSolarWind (initEngine c9Stream) 0 440).2.reset).grains
      = (generateSolarWind (initEngine c9Stream) 0 440).2.grains.map
        (fun g => { g with active := false }) from rfl, hg2v]
    simp only [List.map_cons, List.map_replicate]
  have h2rest : ∀ g ∈ List.replicate 31 ({} : Grain), g.active = false :=
    fun g hg => by rw [List.eq_of_mem_replicate hg]
  have h2dur : ¬ (1 : ℝ) ≤ 0 + 1 / ((0.1
      + ((generateSolarWind (initEngine c9Stream) 0 440).2.reset).rngStream
        (((generateSolarWind (initEngine c9Stream) 0 440).2.reset).rngIndex + 1)
      * 0.2) * 44100) := by
    show ¬ (1 : ℝ) ≤ 0 + 1 / ((0.1
      + (generateSolarWind (initEngine c9Stream) 0 440).2.rngStream
        ((generateSolarWind (initEngine c9Stream) 0 440).2.rngIndex + 1)
      * 0.2) * 44100)
    rw [hstream, hidx7]
    norm_num [c9Stream]
  have h2freeze : ¬ (0.99 : ℝ)
      < ((generateSolarWind (initEngine c9Stream) 0 440).2.reset).rngStream
        (((generateSolarWind (initEngine c9Stream) 0 440).2.reset).rngIndex + 5) := by
    show ¬ (0.99 : ℝ)
      < (generateSolarWind (initEngine c9Stream) 0 440).2.rngStream
        ((generateSolarWind (initEngine c9Stream) 0 440).2.rngIndex + 5)
    rw [hstream, hidx7]
    norm_num [c9Stream]
  have h2frozen : ∀ j,
      ((generateSolarWind (initEngine c9Stream) 0 440).2.reset).solarFrozenSpectrum j
        = 0 := by
    intro j
    show (generateSolarWind (initEngine c9Stream) 0 440).2.solarFrozenSpectrum j = 0
    rw [hfrz2]
    rfl
  have h2combs : ∀ c ∈ ((generateSolarWind (initEngine c9Stream) 0 440).2.reset).reverb.combs,
      c.buffer c.index = 0 := by
    obtain ⟨X2, hX2⟩ := hcombs2x
    intro c hc
    have hc2 : c ∈ (generateSolarWind (initEngine c9Stream) 0 440).2.reverb.combs := hc
    rw [hX2] at hc2
    exact (combLoop_snd_fresh 0.99 0.1 X2 _ c9_initCombs c hc2).1
  have h2aps : ∀ a ∈ ((generateSolarWind (initEngine c9Stream) 0 440).2.reset).reverb.allpasses,
      a.buffer a.index = 0 := by
    intro a ha
    have ha2 : a ∈ (generateSolarWind (initEngine c9Stream) 0 440).2.reverb.allpasses := ha
    rw [haps2] at ha2
    exact allpassLoop_snd_fresh _ c9_initAllpasses a ha2 a.index
  have h2dim : ∀ j,
      ((generateSolarWind (initEngine c9Stream) 0 440).2.reset).dimension.delayBuffer j
        = 0 := hdim2
  have h2d0 : ∀ X : ℝ, (solarDiffStep 0 X
      (((generateSolarWind (initEngine c9Stream) 0 440).2.reset).solarDiffusionBuffer 0)
      (((generateSolarWind (initEngine c9Stream) 0 440).2.reset).solarDiffusionIndex 0)).1
      = X * 0.3 := by
    obtain ⟨v0, hv0⟩ := hdbuf2 0
    intro X
    have hb : ((generateSolarWind (initEngine c9Stream) 0 440).2.reset).solarDiffusionBuffer 0
        = Function.update (fun _ => 0) 0 v0 := hv0
    have hx : ((generateSolarWind (initEngine c9Stream) 0 440).2.reset).solarDiffusionIndex 0
        = 1 := hdidx2 0
    rw [hb, hx]
    exact solarDiffStep_fresh 0 1 (Function.update (fun _ => 0) 0 v0) (by decide)
      (by rw [Function.update_noteq (by decide)]) X
  have h2d1 : ∀ X : ℝ, (solarDiffStep 1 X
      (((generateSolarWind (initEngine c9Stream) 0 440).2.reset).solarDiffusionBuffer 1)
      (((generateSolarWind (initEngine c9Stream) 0 440).2.reset).solarDiffusionIndex 1)).1
      = X * 0.3 := by
    obtain ⟨v1, hv1b⟩ := hdbuf2 1
    intro X
    have hb : ((generateSolarWind (initEngine c9Stream) 0 440).2.reset).solarDiffusionBuffer 1
        = Function.update (fun _ => 0) 0 v1 := hv1b
    have hx : ((generateSolarWind (initEngine c9Stream) 0 440).2.reset).solarDiffusionIndex 1
        = 1 := hdidx2 1
    rw [hb, hx]
    exact solarDiffStep_fresh 1 1 (Function.update (fun _ => 0) 0 v1) (by decide)
      (by rw [Function.update_noteq (by decide)]) X
  have h2d2 : ∀ X : ℝ, (solarDiffStep 2 X
      (((generateSolarWind (initEngine c9Stream) 0 440).2.reset).solarDiffusionBuffer 2)
      (((generateSolarWind (initEngine c9Stream) 0 440).2.reset).solarDiffusionIndex 2)).1
      = X * 0.3 := by
    obtain ⟨v2, hv2b⟩ := hdbuf2 2
    intro X
    have hb : ((generateSolarWind (initEngine c9Stream) 0 440).2.reset).solarDiffusionBuffer 2
        = Function.update (fun _ => 0) 0 v2 := hv2b
    have hx : ((generateSolarWind (initEngine c9Stream) 0 440).2.reset).solarDiffusionIndex 2
        = 1 := hdidx2 2
    rw [hb, hx]
    exact solarDiffStep_fresh 2 1 (Function.update (fun _ => 0) 0 v2) (by decide)
      (by rw [Function.update_noteq (by decide)]) X
  have h2d3 : ∀ X : ℝ, (solarDiffStep 3 X
      (((generateSolarWind (initEngine c9Stream) 0 440).2.reset).solarDiffusionBuffer 3)
      (((generateSolarWind (initEngine c9Stream) 0 440).2.reset).solarDiffusionIndex 3)).1
      = X * 0.3 := by
    obtain ⟨v3, hv3b⟩ := hdbuf2 3
    intro X
    have hb : ((generateSolarWind (initEngine c9Stream) 0 440).2.reset).solarDiffusionBuffer 3
        = Function.update (fun _ => 0) 0 v3 := hv3b
    have hx : ((generateSolarWind (initEngine c9Stream) 0 440).2.reset).solarDiffusionIndex 3
        = 1 := hdidx2 3
    rw [hb, hx]
    exact solarDiffStep_fresh 3 1 (Function.update (fun _ => 0) 0 v3) (by decide)
      (by rw [Function.update_noteq (by decide)]) X
  obtain ⟨hv2, -, -, -, -, -, -, -, -, -, -, -, -, -⟩ :=
    generateSolarWind_eval ((generateSolarWind (initEngine c9Stream) 0 440).2.reset)
      440 { g2v with active := false } (List.replicate 31 {})
      h2sc h2gr rfl h2rest h2dur h2freeze h2frozen hf0l2 hf0b2 h2combs h2aps
      h2dim h2d0 h2d1 h2d2 h2d3
  -- concrete draw values
  have hrs1 : (initEngine c9Stream).rngStream = c9Stream := rfl
  have hri1 : (initEngine c9Stream).rngIndex = 0 := rfl
  have hsin0 : Real.sin ((c9Stream 0 * 0.5 + 0.5) * 2 * Real.pi) = 1 := by
    rw [show c9Stream 0 = -0.5 by norm_num [c9Stream]]
    rw [show ((-0.5 : ℝ) * 0.5 + 0.5) * 2 * Real.pi = Real.pi / 2 by ring]
    exact Real.sin_pi_div_two
  have hc01 : c9Stream (0 + 1) = 0 := by norm_num [c9Stream]
  have hc03 : c9Stream (0 + 3) = 0 := by norm_num [c9Stream]
  have hc04 : c9Stream (0 + 4) = 0 := by norm_num [c9Stream]
  have hrs2R : ((generateSolarWind (initEngine c9Stream) 0 440).2.reset).rngStream
      = c9Stream := hstream
  have hri2R : ((generateSolarWind (initEngine c9Stream) 0 440).2.reset).rngIndex
      = 7 := hidx7
  have hsin7 : Real.sin ((c9Stream 7 * 0.5 + 0.5) * 2 * Real.pi) = 1 := by
    rw [show c9Stream 7 = -0.5 by norm_num [c9Stream]]
    rw [show ((-0.5 : ℝ) * 0.5 + 0.5) * 2 * Real.pi = Real.pi / 2 by ring]
    exact Real.sin_pi_div_two
  have hc71 : c9Stream (7 + 1) = 0 := by norm_num [c9Stream]
  have hc73 : c9Stream (7 + 3) = 0.5 := by norm_num [c9Stream]
  have hc74 : c9Stream (7 + 4) = 0 := by norm_num [c9Stream]
  -- both samples in closed form
  have hR : ((initEngine c9Stream).generateSample 0 440 8).1
      = softClip (softClip (0.0003402
          * (1 * Real.exp (-5 * (1 / ((0.1 + 0 * 0.2) * 44100) - 0.5) ^ 2)
            * (0.3 + (0 : ℝ) * 0.4) * (1 - |(0 : ℝ) * 0.5|)))) := by
    rw [generateSample_mode8 (initEngine c9Stream) rfl]
    show softClip (generateSolarWind (initEngine c9Stream) 0 440).1 = _
    rw [hv1, hrs1, hri1, hsin0, hc01, hc03, hc04]
  have hL : ((((initEngine c9Stream).generateSample 0 440 8).2.reset).generateSample
        0 440 8).1
      = softClip (softClip (0.0003402
          * (1 * Real.exp (-5 * (1 / ((0.1 + 0 * 0.2) * 44100) - 0.5) ^ 2)
            * (0.3 + 0.5 * 0.4) * (1 - |(0 : ℝ) * 0.5|)))) := by
    rw [generateSample_mode8 (initEngine c9Stream) rfl]
    show (((generateSolarWind (initEngine c9Stream) 0 440).2.reset).generateSample
        0 440 8).1 = _
    have hlfR : ((generateSolarWind (initEngine c9Stream) 0 440).2.reset).lastFrequency
        = 440 := hlf2.trans rfl
    rw [generateSample_mode8 ((generateSolarWind (initEngine c9Stream) 0 440).2.reset)
      hlfR]
    show softClip (generateSolarWind
        ((generateSolarWind (initEngine c9Stream) 0 440).2.reset) 0 440).1 = _
    rw [hv2, hrs2R, hri2R, hsin7, hc71, hc73, hc74]
  rw [hL, hR]
  have hexp_le : Real.exp (-5 * (1 / ((0.1 + 0 * 0.2) * 44100) - 0.5) ^ 2) ≤ 1 := by
    rw [Real.exp_le_one_iff]
    nlinarith [sq_nonneg ((1 : ℝ) / ((0.1 + 0 * 0.2) * 44100) - 0.5)]
  exact c9_value_ne (Real.exp (-5 * (1 / ((0.1 + 0 * 0.2) * 44100) - 0.5) ^ 2))
    (Real.exp_pos _) hexp_le

/-- C9 (amended): `reset()` clears exactly the oscillator-side state — the
master phase, the four layer phases, the FM operators (phase and feedback
memory), the grain active flags and the envelope levels/stages — and leaves
every other field untouched: in particular the random-generator position,
the filters, the effect units (chorus, reverb, delay, phaser, bit crusher,
dimension expander), the Karplus-Strong strings, the per-mode static
buffers (plasma, quantum, crystal, solar) and the sample counter all keep
their pre-reset values, so a reset engine is in general not equivalent to a
freshly constructed one. -/
theorem reset_clears_only_oscillator_state (s : SynthEngine) :
    (s.reset).currentPhase = 0
    ∧ (∀ i, (s.reset).layers i = { s.layers i with phase := 0 })
    ∧ (∀ i, (s.reset).fmOperators i
        = { s.fmOperators i with phase := 0, lastOutput := 0 })
    ∧ (s.reset).grains = s.grains.map (fun g => { g with active := false })
    ∧ (∀ i, (s.reset).envelopes i
        = { s.envelopes i with level := 0, state := 0 })
    ∧ (s.reset).rngStream = s.rngStream
    ∧ (s.reset).rngIndex = s.rngIndex
    ∧ (s.reset).filters = s.filters
    ∧ (s.reset).lfos = s.lfos
    ∧ (s.reset).harmonics = s.harmonics
    ∧ (s.reset).strings = s.strings
    ∧ (s.reset).wavetable = s.wavetable
    ∧ (s.reset).chorus = s.chorus
    ∧ (s.reset).reverb = s.reverb
    ∧ (s.reset).delay = s.delay
    ∧ (s.reset).phaser = s.phaser
    ∧ (s.reset).bitCrusher = s.bitCrusher
    ∧ (s.reset).dimension = s.dimension
    ∧ (s.reset).grainCounter = s.grainCounter
    ∧ (s.reset).velocity = s.velocity
    ∧ (s.reset).lastFrequency = s.lastFrequency
    ∧ (s.reset).sampleCounter = s.sampleCounter
    ∧ (s.reset).plasmaFeedbackBuffer = s.plasmaFeedbackBuffer
    ∧ (s.reset).plasmaCombBuffer = s.plasmaCombBuffer
    ∧ (s.reset).plasmaCombIndex = s.plasmaCombIndex
    ∧ (s.reset).quantumSyncPhase = s.quantumSyncPhase
    ∧ (s.reset).quantumFrozenSample = s.quantumFrozenSample
    ∧ (s.reset).crystalPitchBuffer = s.crystalPitchBuffer
    ∧ (s.reset).crystalPitchIndex = s.crystalPitchIndex
    ∧ (s.reset).solarFrozenSpectrum = s.solarFrozenSpectrum
    ∧ (s.reset).solarDiffusionBuffer = s.solarDiffusionBuffer
    ∧ (s.reset).solarDiffusionIndex = s.solarDiffusionIndex :=
  ⟨rfl, fun _ => rfl, fun _ => rfl, rfl, fun _ => rfl, rfl, rfl, rfl, rfl,
    rfl, rfl, rfl, rfl, rfl, rfl, rfl, rfl, rfl, rfl, rfl, rfl, rfl, rfl,
    rfl, rfl, rfl, rfl, rfl, rfl, rfl, rfl, rfl⟩

end

